import Mathlib

/-!
# Verification of the confluence / market-structure pipeline

Shallow embedding, in Lean 4, of the signal-confluence and SMC market-structure
code of this repository:

* `logic_engine/confluence_helpers.py` (zone geometry helpers),
* `logic_engine/buy_confluence_rules.py` and `logic_engine/sell_confluence_rules.py`
  (the two directional evaluators),
* `logic_engine/confluence_checker.py` (`evaluate_market_confluence`),
* `logic_engine/analyzers/smc_structure.py` (swing points, BOS/CHoCH, FVG),
* the detailed `generate_trading_signal` variant of `signal_builder.py`.

Conventions used throughout the embedding:

* Python floats are modelled by `ℚ`.
* A Python `dict` that the code only reads through fixed keys is modelled by a
  structure; a field of type `Option _` models a key whose value may be absent
  or `None` (for the code below the two are indistinguishable: `d.get(k)`
  yields `None` in both cases).  A key that is present with an empty dict/list
  value is modelled by the corresponding empty structure/list.
* Human-readable reason strings are modelled by the inductive type `Reason`:
  one constructor per `append` site in the source, carrying the numeric payload
  that the source interpolates into the message.  The exact message text is
  recorded in each constructor's doc comment.
* Functions that can raise in Python return `Except String _`; the error string
  names the Python exception.
-/

namespace NewSatelite

/-- Reason strings appended by the source code, one constructor per append
site.  The doc string of each constructor is the message of the source
(numeric payloads elided into constructor arguments). -/
inductive Reason where
  /-- "Classic Indicators: Data missing." (buy_confluence_rules.py line 40) -/
  | classicDataMissing
  /-- "SMC Signals: Data missing." (buy_confluence_rules.py line 55) -/
  | smcDataMissing
  /-- "Additional Market Data: Data missing." (buy_confluence_rules.py line 71) -/
  | additionalDataMissing
  /-- "EMA: ... Trend" with the titled label (buy line 90 / sell line 79) -/
  | emaTrend (label : String)
  /-- "MACD: Bullish Momentum" (buy line 94) -/
  | macdBullish
  /-- "MACD: Bearish Momentum" (sell line 83) -/
  | macdBearish
  /-- "RSI: Not Overbought (..)" (buy line 98) -/
  | rsiNotOverbought (v : ℚ)
  /-- "RSI: Oversold (..) - Potential Reversal" (buy line 100) -/
  | rsiOversold (v : ℚ)
  /-- "RSI: Not Oversold (..)" (sell line 88) -/
  | rsiNotOversold (v : ℚ)
  /-- "RSI: Overbought (..) - Potential Reversal" (sell line 90) -/
  | rsiOverbought (v : ℚ)
  /-- "Stoch RSI: Bullish Momentum/Crossover" (buy line 104) -/
  | stochBullish
  /-- "Stoch RSI: Bearish Momentum/Crossover" (sell line 94) -/
  | stochBearish
  /-- "BB: ..." with the titled label (buy line 108 / sell line 98) -/
  | bbSignal (label : String)
  /-- "SMC: ... Detected" with the titled BOS/CHoCH type (buy line 114 / sell line 104) -/
  | smcBreak (label : String)
  /-- "SMC: Bullish FVG Present" (buy line 119) -/
  | fvgBullishPresent
  /-- "SMC: Bearish FVG Present" (sell line 109) -/
  | fvgBearishPresent
  /-- "SMC: Price in/entering Bullish FVG (reaction)" (buy line 123) -/
  | priceReactingFvgBull
  /-- "SMC: Price in/entering Bearish FVG (reaction)" (sell line 114) -/
  | priceReactingFvgBear
  /-- "SMC: Bullish OB Present" (buy line 129) -/
  | obBullishPresent
  /-- "SMC: Bearish OB Present" (sell line 120) -/
  | obBearishPresent
  /-- "SMC: Price near/in/entering Bullish OB (reaction)" (buy line 133) -/
  | priceReactingObBull
  /-- "SMC: Price near/in/entering Bearish OB (reaction)" (sell line 125) -/
  | priceReactingObBear
  /-- "SMC: Equal Low (..) swept and reversed (liquidity grab)." (buy line 139) -/
  | eqLowSwept (level : ℚ)
  /-- "SMC: Price near Equal Low (..) (potential liquidity)." (buy line 142) -/
  | eqLowNear (level : ℚ)
  /-- "SMC: Equal High (..) swept and reversed (liquidity grab)." (sell line 132) -/
  | eqHighSwept (level : ℚ)
  /-- "SMC: Price near Equal High (..) (potential liquidity)." (sell line 135) -/
  | eqHighNear (level : ℚ)
  /-- "Orderbook: Strong Bid Wall / Support detected near current price." (buy line 157) -/
  | bidWallStrong
  /-- "Orderbook: Strong Ask Wall / Resistance detected near current price." (sell line 149) -/
  | askWallStrong
  /-- "Funding Rate: Positive (Bullish Sentiment)." (buy line 170) -/
  | fundingBullish
  /-- "Funding Rate: Negative (Bearish Sentiment)." (sell line 160) -/
  | fundingBearish
  /-- "Open Interest: Increasing with rising price (Bullish confirmation)." (buy line 185) -/
  | oiRisingWithPrice
  /-- "Open Interest: Increasing with falling price (Bearish confirmation)." (sell line 174) -/
  | oiRisingWithDrop
  /-- "Long/Short Ratio: Relatively balanced or slightly bullish bias." (buy line 201) -/
  | lsRatioBullish
  /-- "Long/Short Ratio: Relatively high long bias or starting to decrease (Bearish sentiment)." (sell line 189) -/
  | lsRatioBearish
  /-- "Taker Volume: Buy Volume Dominant (.. ratio)." (buy line 211) -/
  | takerBuyDominant (ratio : ℚ)
  /-- "Taker Volume: Sell Volume Dominant (.. ratio)." (sell line 198) -/
  | takerSellDominant (ratio : ℚ)
  /-- "Strong Confluence: All major conditions met (...) + n additional bullish signals." (buy line 238) -/
  | strongConfluenceBuy (n : ℕ)
  /-- "Moderate Confluence: ... + n additional bullish signals." (buy line 260) -/
  | moderateConfluenceBuy (n : ℕ)
  /-- "Potential Confluence: Price reacting at POI/Liquidity with momentum/BB confirmation." (buy line 270) -/
  | potentialConfluenceBuy
  /-- Strong-confluence message of the sell evaluator (sell line 225) -/
  | strongConfluenceSell (n : ℕ)
  /-- Moderate-confluence message of the sell evaluator (sell line 247) -/
  | moderateConfluenceSell (n : ℕ)
  /-- Potential-confluence message of the sell evaluator (sell line 257) -/
  | potentialConfluenceSell
  /-- "Error: Missing current price data" (confluence_checker.py line 45) -/
  | errorMissingPrice
  /-- "Conflicting strong buy and strong sell signals. Market uncertainty." (checker line 75) -/
  | conflictingStrong
  /-- "Conflicting moderate buy and moderate sell signals." (checker line 89) -/
  | conflictingModerate
  /-- "No clear dominant confluence signal detected." (checker line 103) -/
  | noClearSignal
  deriving DecidableEq, Repr

/-! ## Zone geometry helpers (`logic_engine/confluence_helpers.py`) -/

/-- `_is_price_in_zone` of `confluence_helpers.py` (lines 8-13): membership in
the sorted two-element zone, inclusive; any other zone shape yields `False`. -/
def is_price_in_zone (current_price : ℚ) (zone : List ℚ) : Bool :=
  match zone with
  | [a, b] => decide (min a b ≤ current_price ∧ current_price ≤ max a b)
  | _ => false

/-- `_is_price_near_zone` of `confluence_helpers.py` (lines 15-24): membership
in the zone inflated by `current_price * tolerance_percent` on both sides. -/
def is_price_near_zone (current_price : ℚ) (zone : List ℚ)
    (tolerance_percent : ℚ) : Bool :=
  match zone with
  | [a, b] =>
      let abs_tolerance := current_price * tolerance_percent
      decide (min a b - abs_tolerance ≤ current_price ∧
              current_price ≤ max a b + abs_tolerance)
  | _ => false

/-- `_is_price_entering_zone` of `confluence_helpers.py` (lines 26-38): the
candle opens strictly below the sorted zone and closes inside it (bullish
entry), or opens strictly above and closes inside it (bearish entry). -/
def is_price_entering_zone (open_price close_price : ℚ) (zone : List ℚ) : Bool :=
  match zone with
  | [a, b] =>
      let zone_min := min a b
      let zone_max := max a b
      let bullish_entry :=
        decide (open_price < zone_min ∧ zone_min ≤ close_price ∧
                close_price ≤ zone_max)
      let bearish_entry :=
        decide (zone_max < open_price ∧ close_price ≤ zone_max ∧
                zone_min ≤ close_price)
      bullish_entry || bearish_entry
  | _ => false

/-- Modelled from the spec: the behaviour §4.3 claims for `entering_zone` —
"true if the bar's open is outside the zone and its close is inside (or
passes through), in either direction".  A pass-through close ends beyond the
far edge of the zone after opening beyond the near edge. -/
def spec_entering_zone (o c lo hi : ℚ) : Prop :=
  (o < lo ∨ hi < o) ∧
    ((lo ≤ c ∧ c ≤ hi) ∨ (o < lo ∧ hi < c) ∨ (hi < o ∧ c < lo))

/-! ## Input data model of the confluence evaluators

Each structure models the Python dict of the same shape.  An `Option` field
models a key that may be absent or hold `None` — indistinguishable for this
code, which reads every key with `.get`.  A key present with an empty
dict/list is modelled by the empty structure/list. -/

/-- The `classic_indicators` dict as read by the evaluators. -/
structure ClassicIndicators where
  ema_signal : Option String
  macd_trend : Option String
  rsi_signal : Option String
  stoch_signal : Option String
  bb_signal : Option String
  rsi : Option ℚ
  deriving DecidableEq, Repr

/-- The `bos_choch` sub-dict of `smc_signals`. -/
structure BosChoch where
  type : Option String
  deriving DecidableEq, Repr

/-- The `fvg` sub-dict of `smc_signals`; `zone = []` models an absent or empty
zone (both falsy in the source). -/
structure FvgData where
  type : Option String
  zone : List ℚ
  deriving DecidableEq, Repr

/-- A `bullish_ob` / `bearish_ob` sub-dict. -/
structure ObData where
  low : Option ℚ
  high : Option ℚ
  deriving DecidableEq, Repr

/-- The `order_block` sub-dict of `smc_signals`. -/
structure OrderBlockData where
  bullish_ob : Option ObData
  bearish_ob : Option ObData
  deriving DecidableEq, Repr

/-- The `eq_zone` sub-dict of `smc_signals`. -/
structure EqZoneData where
  eq_low : List ℚ
  eq_high : List ℚ
  deriving DecidableEq, Repr

/-- The `smc_signals` dict.  `none` on a sub-dict models the `.get(key, {})`
default (absent key). -/
structure SmcSignals where
  bos_choch : Option BosChoch
  fvg : Option FvgData
  order_block : Option OrderBlockData
  eq_zone : Option EqZoneData
  deriving DecidableEq, Repr

/-- A Binance spot orderbook: lists of (price, quantity) levels, already
converted to numbers as the source does with `float(...)`. -/
structure Orderbook where
  bids : List (ℚ × ℚ)
  asks : List (ℚ × ℚ)
  deriving DecidableEq, Repr

/-- The `binance_spot` sub-dict of `market_data_additional`. -/
structure BinanceSpot where
  orderbook : Option Orderbook
  deriving DecidableEq, Repr

/-- The `binance_futures` sub-dict.  Each field holds the number reached by
`safe_get_nested` on the given path, or `none` when the path is missing:
`funding_rate` ↦ `['funding_rate', 0, 'fundingRate']`,
`open_interest` ↦ `['open_interest', 'openInterest']`,
`taker_buy_sell_volume` ↦ `['taker_buy_sell_volume', 0, 'buySellRatio']`,
`long_short_account_ratio` ↦ `['long_short_account_ratio', 0, 'longShortRatio']`. -/
structure BinanceFutures where
  funding_rate : Option ℚ
  open_interest : Option ℚ
  taker_buy_sell_volume : Option ℚ
  long_short_account_ratio : Option ℚ
  deriving DecidableEq, Repr

/-- The `bybit` sub-dict; fields are the `safe_get_nested` path values
`['funding_rate'|'open_interest'|'long_short_ratio', 'result', 'list', 0, …]`. -/
structure BybitData where
  funding_rate : Option ℚ
  open_interest : Option ℚ
  long_short_ratio : Option ℚ
  deriving DecidableEq, Repr

/-- The `market_data_additional` dict. -/
structure MarketAux where
  binance_spot : BinanceSpot
  binance_futures : BinanceFutures
  bybit : BybitData
  deriving DecidableEq, Repr

/-- Result dict of `check_buy_confluence` / `check_sell_confluence`:
`{'type': …, 'reason': […]}`. -/
structure SignalStrength where
  type : String
  reason : List Reason
  deriving DecidableEq, Repr

/-- Empty `smc_signals` dict (the `{}` substituted for `None` input). -/
def emptySmc : SmcSignals := ⟨none, none, none, none⟩

/-- Empty `binance_spot` dict. -/
def emptySpot : BinanceSpot := ⟨none⟩

/-- Empty `binance_futures` dict. -/
def emptyFutures : BinanceFutures := ⟨none, none, none, none⟩

/-- Empty `bybit` dict. -/
def emptyBybit : BybitData := ⟨none, none, none⟩

/-- Maximum of a price list (`max(...)` in Python); `0` on `[]`, which the
source never evaluates. -/
def listMax : List ℚ → ℚ
  | [] => 0
  | x :: xs => xs.foldl max x

/-- Minimum of a price list (`min(...)` / `sorted(...)[0]`); `0` on `[]`. -/
def listMin : List ℚ → ℚ
  | [] => 0
  | x :: xs => xs.foldl min x

/-! ### Threshold constants of `buy_confluence_rules.py` (lines 10-24) and
`sell_confluence_rules.py` (lines 10-24) -/

def FUNDING_RATE_THRESHOLD_POSITIVE : ℚ := 0.0001
def FUNDING_RATE_THRESHOLD_NEGATIVE : ℚ := -0.0001
def OPEN_INTEREST_HIGH_THRESHOLD : ℚ := 100000000
def ORDERBOOK_WALL_VOLUME_MULTIPLIER : ℚ := 50
def LONG_SHORT_RATIO_BULLISH_BIAS_MAX : ℚ := 1.05
def LONG_SHORT_RATIO_BULLISH_BIAS_MIN : ℚ := 0.95
def LONG_SHORT_RATIO_BEARISH_BIAS_MIN : ℚ := 1.10
def LONG_SHORT_RATIO_BEARISH_BIAS_MAX : ℚ := 1.25
def TAKER_VOLUME_BULLISH_THRESHOLD : ℚ := 0.55
def TAKER_VOLUME_BEARISH_THRESHOLD : ℚ := 0.45
def PRICE_NEAR_ZONE_TOLERANCE_OB : ℚ := 0.005

/-! ## Buy evaluator (`logic_engine/buy_confluence_rules.py`)

The sixteen `confluences` booleans of line 78-85, and per-block helper
functions computing each flag together with the reasons the block appends. -/

/-- The `confluences` dict of `check_buy_confluence` (lines 78-85). -/
structure BuyFlags where
  ema_bullish_trend : Bool
  macd_bullish_momentum : Bool
  rsi_not_overbought : Bool
  stoch_bullish_momentum : Bool
  smc_structure_break : Bool
  fvg_bullish_presence : Bool
  ob_bullish_presence : Bool
  price_reacting_to_fvg : Bool
  price_reacting_to_ob : Bool
  liquidity_grab_low : Bool
  bb_bullish_signal : Bool
  ob_support_strong : Bool
  funding_rate_bullish : Bool
  oi_increasing_with_price : Bool
  long_short_ratio_bullish_divergence : Bool
  taker_buy_volume_dominant : Bool
  deriving DecidableEq, Repr

/-- Lines 88-90: EMA trend flag and reason. -/
def emaBuyBlock (ci : ClassicIndicators) : Bool × List Reason :=
  match ci.ema_signal with
  | some l => if l = "strong_bullish" ∨ l = "bullish" then (true, [.emaTrend l]) else (false, [])
  | none => (false, [])

/-- Lines 92-94: MACD flag. -/
def macdBuyBlock (ci : ClassicIndicators) : Bool × List Reason :=
  if ci.macd_trend = some "bullish" then (true, [.macdBullish]) else (false, [])

/-- Lines 96-100: RSI-not-overbought flag, with the extra oversold note. -/
def rsiBuyBlock (ci : ClassicIndicators) : Bool × List Reason :=
  match ci.rsi with
  | some v =>
      if v < 70 then
        (true, [.rsiNotOverbought v] ++ if v < 30 then [.rsiOversold v] else [])
      else (false, [])
  | none => (false, [])

/-- Lines 102-104: stochastic momentum flag. -/
def stochBuyBlock (ci : ClassicIndicators) : Bool × List Reason :=
  if ci.stoch_signal = some "bullish" ∨ ci.stoch_signal = some "oversold_bullish_cross" then
    (true, [.stochBullish])
  else (false, [])

/-- Lines 106-108: Bollinger-band flag. -/
def bbBuyBlock (ci : ClassicIndicators) : Bool × List Reason :=
  match ci.bb_signal with
  | some l =>
      if l = "cross_above_middle" ∨ l = "bounce_from_lower" ∨
         l = "cross_above_lower_band" ∨ l = "outside_lower_band" then
        (true, [.bbSignal l])
      else (false, [])
  | none => (false, [])

/-- Lines 111-114: BOS/CHoCH structure-break flag. -/
def bosBuyBlock (smc : SmcSignals) : Bool × List Reason :=
  match smc.bos_choch.bind BosChoch.type with
  | some l =>
      if l = "bullish_bos" ∨ l = "bullish_choch" ∨ l = "bullish_choch_potential" then
        (true, [.smcBreak l])
      else (false, [])
  | none => (false, [])

/-- Lines 116-123: bullish-FVG presence and price-reaction flags.  The
`current_price is not None` guards always hold here: evaluation with a price
is the modelled input space. -/
def fvgBuyBlock (smc : SmcSignals) (cp op : ℚ) : Bool × Bool × List Reason :=
  match smc.fvg with
  | some f =>
      if f.type = some "bullish_fvg" ∧ f.zone ≠ [] then
        if is_price_in_zone cp f.zone || is_price_entering_zone op cp f.zone then
          (true, true, [.fvgBullishPresent, .priceReactingFvgBull])
        else (true, false, [.fvgBullishPresent])
      else (false, false, [])
  | none => (false, false, [])

/-- Lines 125-133: bullish-OB presence and price-reaction flags. -/
def obBuyBlock (smc : SmcSignals) (cp op : ℚ) : Bool × Bool × List Reason :=
  match smc.order_block.bind OrderBlockData.bullish_ob with
  | some o =>
      match o.low, o.high with
      | some lo, some hi =>
          if is_price_near_zone cp [lo, hi] PRICE_NEAR_ZONE_TOLERANCE_OB ||
             is_price_entering_zone op cp [lo, hi] then
            (true, true, [.obBullishPresent, .priceReactingObBull])
          else (true, false, [.obBullishPresent])
      | _, _ => (false, false, [])
  | none => (false, false, [])

/-- Lines 135-142: equal-low liquidity flag. -/
def eqLowBuyBlock (smc : SmcSignals) (cp op : ℚ) : Bool × List Reason :=
  let eqLow := ((smc.eq_zone.map EqZoneData.eq_low).getD [])
  match eqLow with
  | [] => (false, [])
  | _ =>
      let level := listMax eqLow
      if op < level ∧ level < cp ∧ cp < level * 1.005 then
        (true, [.eqLowSwept level])
      else if is_price_near_zone cp [level, level] 0.001 then
        (true, [.eqLowNear level])
      else (false, [])

/-- Lines 146-162: strong-bid-wall flag.  The division `(cp - top_bid) / cp`
raises `ZeroDivisionError` when `cp = 0` (the source has no truthiness guard
on `current_price` here, unlike the sell evaluator). -/
def bidWallBlock (spot : BinanceSpot) (cp : ℚ) : Except String (Bool × List Reason) :=
  match spot.orderbook with
  | some ob =>
      match ob.bids with
      | [] => .ok (false, [])
      | _ =>
          let top_bid := listMax (ob.bids.map Prod.fst)
          if top_bid = 0 then .ok (false, [])
          else if cp = 0 then .error "ZeroDivisionError"
          else if (cp - top_bid) / cp < 0.005 then
            let vol := ((ob.bids.take 5).map Prod.snd).sum
            if ORDERBOOK_WALL_VOLUME_MULTIPLIER * cp < vol then .ok (true, [.bidWallStrong])
            else .ok (false, [])
          else .ok (false, [])
  | none => .ok (false, [])

/-- Lines 164-171: funding-rate flag (buy side). -/
def fundingBuyBlock (fut : BinanceFutures) (byb : BybitData) : Bool × List Reason :=
  let bfr := fut.funding_rate.getD 0
  let yfr := byb.funding_rate.getD 0
  if FUNDING_RATE_THRESHOLD_POSITIVE < bfr ∨ FUNDING_RATE_THRESHOLD_POSITIVE < yfr then
    (true, [.fundingBullish])
  else (false, [])

/-- Lines 176-186: open-interest flag (buy side). -/
def oiBuyBlock (fut : BinanceFutures) (byb : BybitData) (cp op : ℚ) : Bool × List Reason :=
  let boi := fut.open_interest.getD 0
  let yoi := byb.open_interest.getD 0
  if op < cp ∧ OPEN_INTEREST_HIGH_THRESHOLD < boi ∧ OPEN_INTEREST_HIGH_THRESHOLD < yoi then
    (true, [.oiRisingWithPrice])
  else (false, [])

/-- Lines 191-202: long/short-ratio flag (buy side): either exchange inside
the balanced band `(0.95, 1.05)`; missing data defaults the ratio to `1.0`,
which lies inside the band. -/
def lsBuyBlock (fut : BinanceFutures) (byb : BybitData) : Bool × List Reason :=
  let bls := fut.long_short_account_ratio.getD 1
  let yls := byb.long_short_ratio.getD 1
  if (bls < LONG_SHORT_RATIO_BULLISH_BIAS_MAX ∧ LONG_SHORT_RATIO_BULLISH_BIAS_MIN < bls) ∨
     (yls < LONG_SHORT_RATIO_BULLISH_BIAS_MAX ∧ LONG_SHORT_RATIO_BULLISH_BIAS_MIN < yls) then
    (true, [.lsRatioBullish])
  else (false, [])

/-- Lines 207-214: taker-volume flag (buy side); missing data defaults to 0.5. -/
def takerBuyBlock (fut : BinanceFutures) : Bool × List Reason :=
  let r := fut.taker_buy_sell_volume.getD 0.5
  if TAKER_VOLUME_BULLISH_THRESHOLD < r then (true, [.takerBuyDominant r]) else (false, [])

/-- Count of true auxiliary flags (`additional_bullish_signals`, lines 228-234). -/
def additionalBuy (f : BuyFlags) : ℕ :=
  f.ob_support_strong.toNat + f.funding_rate_bullish.toNat +
  f.oi_increasing_with_price.toNat + f.long_short_ratio_bullish_divergence.toNat +
  f.taker_buy_volume_dominant.toNat

/-- The strong-buy tier predicate (lines 220-236). -/
def strongBuyCond (f : BuyFlags) : Bool :=
  f.ema_bullish_trend && f.macd_bullish_momentum && f.rsi_not_overbought &&
  f.stoch_bullish_momentum && f.smc_structure_break &&
  (f.price_reacting_to_ob || f.price_reacting_to_fvg) &&
  (f.liquidity_grab_low || f.bb_bullish_signal) &&
  decide (2 ≤ additionalBuy f)

/-- The moderate-buy tier predicate (lines 245-258). -/
def moderateBuyCond (f : BuyFlags) : Bool :=
  f.ema_bullish_trend && f.smc_structure_break &&
  (f.macd_bullish_momentum || f.stoch_bullish_momentum || f.bb_bullish_signal) &&
  (f.price_reacting_to_ob || f.price_reacting_to_fvg || f.liquidity_grab_low) &&
  decide (1 ≤ additionalBuy f)

/-- The potential-buy tier predicate (lines 267-268). -/
def potentialBuyCond (f : BuyFlags) : Bool :=
  (f.price_reacting_to_ob || f.price_reacting_to_fvg || f.liquidity_grab_low) &&
  (f.rsi_not_overbought || f.stoch_bullish_momentum || f.bb_bullish_signal)

/-- The tier if-chain of lines 216-275: strong, then moderate, then potential,
else no_signal, with the tier's summary reason appended. -/
def classifyBuy (f : BuyFlags) (reasons : List Reason) : SignalStrength :=
  if strongBuyCond f then ⟨"strong_buy", reasons ++ [.strongConfluenceBuy (additionalBuy f)]⟩
  else if moderateBuyCond f then ⟨"moderate_buy", reasons ++ [.moderateConfluenceBuy (additionalBuy f)]⟩
  else if potentialBuyCond f then ⟨"potential_buy", reasons ++ [.potentialConfluenceBuy]⟩
  else ⟨"no_signal", reasons⟩

/-- The flag/reason evaluation body of `check_buy_confluence` (lines 87-214),
after the three `None` guards have been applied. -/
def buyEval (ci : ClassicIndicators) (smc : SmcSignals) (cp op : ℚ)
    (spot : BinanceSpot) (fut : BinanceFutures) (byb : BybitData) :
    Except String (BuyFlags × List Reason) := do
  let ema := emaBuyBlock ci
  let macd := macdBuyBlock ci
  let rsi := rsiBuyBlock ci
  let stoch := stochBuyBlock ci
  let bb := bbBuyBlock ci
  let bos := bosBuyBlock smc
  let fvg := fvgBuyBlock smc cp op
  let ob := obBuyBlock smc cp op
  let eq := eqLowBuyBlock smc cp op
  let wall ← bidWallBlock spot cp
  let fund := fundingBuyBlock fut byb
  let oi := oiBuyBlock fut byb cp op
  let ls := lsBuyBlock fut byb
  let taker := takerBuyBlock fut
  let flags : BuyFlags :=
    ⟨ema.1, macd.1, rsi.1, stoch.1, bos.1, fvg.1, ob.1, fvg.2.1, ob.2.1, eq.1, bb.1,
     wall.1, fund.1, oi.1, ls.1, taker.1⟩
  let reasons := ema.2 ++ macd.2 ++ rsi.2 ++ stoch.2 ++ bb.2 ++ bos.2 ++ fvg.2.2 ++
    ob.2.2 ++ eq.2 ++ wall.2 ++ fund.2 ++ oi.2 ++ ls.2 ++ taker.2
  return (flags, reasons)

/-- `check_buy_confluence` of `buy_confluence_rules.py` (lines 27-275).  A
`None` classic-indicators input returns immediately (lines 38-41); `None` SMC
signals or additional market data degrade to empty dicts with a data-missing
reason (lines 52-57, 66-75). -/
def check_buy_confluence (ci : Option ClassicIndicators) (smc : Option SmcSignals)
    (cp op : ℚ) (aux : Option MarketAux) : Except String SignalStrength :=
  match ci with
  | none => .ok ⟨"no_signal", [.classicDataMissing]⟩
  | some ci =>
      let smcPair : SmcSignals × List Reason :=
        match smc with
        | none => (emptySmc, [.smcDataMissing])
        | some s => (s, [])
      let auxPair : (BinanceSpot × BinanceFutures × BybitData) × List Reason :=
        match aux with
        | none => ((emptySpot, emptyFutures, emptyBybit), [.additionalDataMissing])
        | some a => ((a.binance_spot, a.binance_futures, a.bybit), [])
      do
        let fr ← buyEval ci smcPair.1 cp op auxPair.1.1 auxPair.1.2.1 auxPair.1.2.2
        return classifyBuy fr.1 (smcPair.2 ++ auxPair.2 ++ fr.2)

/-! ## Sell evaluator (`logic_engine/sell_confluence_rules.py`)

Unlike the buy evaluator, `check_sell_confluence` reads its three dict inputs
with `.get` immediately (lines 37, 45, 51) without any `None` guard, so a
`None` in any of them raises `AttributeError`. -/

/-- The `confluences` dict of `check_sell_confluence` (lines 56-74). -/
structure SellFlags where
  ema_bearish_trend : Bool
  macd_bearish_momentum : Bool
  rsi_not_oversold : Bool
  stoch_bearish_momentum : Bool
  smc_structure_break : Bool
  fvg_bearish_presence : Bool
  ob_bearish_presence : Bool
  price_reacting_to_fvg : Bool
  price_reacting_to_ob : Bool
  liquidity_grab_high : Bool
  bb_bearish_signal : Bool
  ob_resistance_strong : Bool
  funding_rate_bearish : Bool
  oi_increasing_with_price_drop : Bool
  long_short_ratio_bearish_divergence : Bool
  taker_sell_volume_dominant : Bool
  deriving DecidableEq, Repr

/-- Lines 77-79: EMA trend flag (sell side). -/
def emaSellBlock (ci : ClassicIndicators) : Bool × List Reason :=
  match ci.ema_signal with
  | some l => if l = "strong_bearish" ∨ l = "bearish" then (true, [.emaTrend l]) else (false, [])
  | none => (false, [])

/-- Lines 81-83: MACD flag (sell side). -/
def macdSellBlock (ci : ClassicIndicators) : Bool × List Reason :=
  if ci.macd_trend = some "bearish" then (true, [.macdBearish]) else (false, [])

/-- Lines 86-90: RSI-not-oversold flag, with the extra overbought note. -/
def rsiSellBlock (ci : ClassicIndicators) : Bool × List Reason :=
  match ci.rsi with
  | some v =>
      if 30 < v then
        (true, [.rsiNotOversold v] ++ if 70 < v then [.rsiOverbought v] else [])
      else (false, [])
  | none => (false, [])

/-- Lines 92-94: stochastic momentum flag (sell side). -/
def stochSellBlock (ci : ClassicIndicators) : Bool × List Reason :=
  if ci.stoch_signal = some "bearish" ∨ ci.stoch_signal = some "overbought_bearish_cross" then
    (true, [.stochBearish])
  else (false, [])

/-- Lines 96-98: Bollinger-band flag (sell side). -/
def bbSellBlock (ci : ClassicIndicators) : Bool × List Reason :=
  match ci.bb_signal with
  | some l =>
      if l = "cross_below_middle" ∨ l = "bounce_from_upper" ∨
         l = "cross_below_upper_band" ∨ l = "outside_upper_band" then
        (true, [.bbSignal l])
      else (false, [])
  | none => (false, [])

/-- Lines 101-104: BOS/CHoCH structure-break flag (sell side). -/
def bosSellBlock (smc : SmcSignals) : Bool × List Reason :=
  match smc.bos_choch.bind BosChoch.type with
  | some l =>
      if l = "bearish_bos" ∨ l = "bearish_choch" ∨ l = "bearish_choch_potential" then
        (true, [.smcBreak l])
      else (false, [])
  | none => (false, [])

/-- Lines 106-114: bearish-FVG presence and price-reaction flags. -/
def fvgSellBlock (smc : SmcSignals) (cp op : ℚ) : Bool × Bool × List Reason :=
  match smc.fvg with
  | some f =>
      if f.type = some "bearish_fvg" ∧ f.zone ≠ [] then
        if is_price_in_zone cp f.zone || is_price_entering_zone op cp f.zone then
          (true, true, [.fvgBearishPresent, .priceReactingFvgBear])
        else (true, false, [.fvgBearishPresent])
      else (false, false, [])
  | none => (false, false, [])

/-- Lines 116-125: bearish-OB presence and price-reaction flags. -/
def obSellBlock (smc : SmcSignals) (cp op : ℚ) : Bool × Bool × List Reason :=
  match smc.order_block.bind OrderBlockData.bearish_ob with
  | some o =>
      match o.low, o.high with
      | some lo, some hi =>
          if is_price_near_zone cp [lo, hi] PRICE_NEAR_ZONE_TOLERANCE_OB ||
             is_price_entering_zone op cp [lo, hi] then
            (true, true, [.obBearishPresent, .priceReactingObBear])
          else (true, false, [.obBearishPresent])
      | _, _ => (false, false, [])
  | none => (false, false, [])

/-- Lines 127-135: equal-high liquidity flag; the level is `min(eq_high)`. -/
def eqHighSellBlock (smc : SmcSignals) (cp op : ℚ) : Bool × List Reason :=
  let eqHigh := ((smc.eq_zone.map EqZoneData.eq_high).getD [])
  match eqHigh with
  | [] => (false, [])
  | _ =>
      let level := listMin eqHigh
      if level < op ∧ cp < level ∧ level * 0.995 < cp then
        (true, [.eqHighSwept level])
      else if is_price_near_zone cp [level, level] 0.001 then
        (true, [.eqHighNear level])
      else (false, [])

/-- Lines 139-152: strong-ask-wall flag.  Here the source guards the division
with the truthiness of `current_price` (line 145), so `cp = 0` skips the block
instead of raising. -/
def askWallBlock (spot : BinanceSpot) (cp : ℚ) : Bool × List Reason :=
  match spot.orderbook with
  | some ob =>
      match ob.asks with
      | [] => (false, [])
      | _ =>
          let top_ask := listMin (ob.asks.map Prod.fst)
          if cp ≠ 0 ∧ top_ask ≠ 0 ∧ (top_ask - cp) / cp < 0.005 then
            let vol := ((ob.asks.take 5).map Prod.snd).sum
            if ORDERBOOK_WALL_VOLUME_MULTIPLIER * cp < vol then (true, [.askWallStrong])
            else (false, [])
          else (false, [])
  | none => (false, [])

/-- Lines 154-163: funding-rate flag (sell side). -/
def fundingSellBlock (fut : BinanceFutures) (byb : BybitData) : Bool × List Reason :=
  let bfr := fut.funding_rate.getD 0
  let yfr := byb.funding_rate.getD 0
  if bfr < FUNDING_RATE_THRESHOLD_NEGATIVE ∨ yfr < FUNDING_RATE_THRESHOLD_NEGATIVE then
    (true, [.fundingBearish])
  else (false, [])

/-- Lines 165-175: open-interest flag (sell side). -/
def oiSellBlock (fut : BinanceFutures) (byb : BybitData) (cp op : ℚ) : Bool × List Reason :=
  let boi := fut.open_interest.getD 0
  let yoi := byb.open_interest.getD 0
  if cp < op ∧ OPEN_INTEREST_HIGH_THRESHOLD < boi ∧ OPEN_INTEREST_HIGH_THRESHOLD < yoi then
    (true, [.oiRisingWithDrop])
  else (false, [])

/-- Lines 179-192: long/short-ratio flag (sell side): one exchange above 1.10
while both stay below 1.25 — not the mirror of the buy-side band. -/
def lsSellBlock (fut : BinanceFutures) (byb : BybitData) : Bool × List Reason :=
  let bls := fut.long_short_account_ratio.getD 1
  let yls := byb.long_short_ratio.getD 1
  if (LONG_SHORT_RATIO_BEARISH_BIAS_MIN < bls ∨ LONG_SHORT_RATIO_BEARISH_BIAS_MIN < yls) ∧
     (bls < LONG_SHORT_RATIO_BEARISH_BIAS_MAX ∧ yls < LONG_SHORT_RATIO_BEARISH_BIAS_MAX) then
    (true, [.lsRatioBearish])
  else (false, [])

/-- Lines 194-199: taker-volume flag (sell side). -/
def takerSellBlock (fut : BinanceFutures) : Bool × List Reason :=
  let r := fut.taker_buy_sell_volume.getD 0.5
  if r < TAKER_VOLUME_BEARISH_THRESHOLD then (true, [.takerSellDominant r]) else (false, [])

/-- Count of true auxiliary flags (`additional_bearish_signals`, lines 215-221). -/
def additionalSell (f : SellFlags) : ℕ :=
  f.ob_resistance_strong.toNat + f.funding_rate_bearish.toNat +
  f.oi_increasing_with_price_drop.toNat + f.long_short_ratio_bearish_divergence.toNat +
  f.taker_sell_volume_dominant.toNat

/-- The strong-sell tier predicate (lines 207-223). -/
def strongSellCond (f : SellFlags) : Bool :=
  f.ema_bearish_trend && f.macd_bearish_momentum && f.rsi_not_oversold &&
  f.stoch_bearish_momentum && f.smc_structure_break &&
  (f.price_reacting_to_ob || f.price_reacting_to_fvg) &&
  (f.liquidity_grab_high || f.bb_bearish_signal) &&
  decide (2 ≤ additionalSell f)

/-- The moderate-sell tier predicate (lines 232-245). -/
def moderateSellCond (f : SellFlags) : Bool :=
  f.ema_bearish_trend && f.smc_structure_break &&
  (f.macd_bearish_momentum || f.stoch_bearish_momentum || f.bb_bearish_signal) &&
  (f.price_reacting_to_ob || f.price_reacting_to_fvg || f.liquidity_grab_high) &&
  decide (1 ≤ additionalSell f)

/-- The potential-sell tier predicate (lines 254-255). -/
def potentialSellCond (f : SellFlags) : Bool :=
  (f.price_reacting_to_ob || f.price_reacting_to_fvg || f.liquidity_grab_high) &&
  (f.rsi_not_oversold || f.stoch_bearish_momentum || f.bb_bearish_signal)

/-- The tier if-chain of lines 203-262 of the sell evaluator. -/
def classifySell (f : SellFlags) (reasons : List Reason) : SignalStrength :=
  if strongSellCond f then ⟨"strong_sell", reasons ++ [.strongConfluenceSell (additionalSell f)]⟩
  else if moderateSellCond f then ⟨"moderate_sell", reasons ++ [.moderateConfluenceSell (additionalSell f)]⟩
  else if potentialSellCond f then ⟨"potential_sell", reasons ++ [.potentialConfluenceSell]⟩
  else ⟨"no_signal", reasons⟩

/-- The flag/reason evaluation body of `check_sell_confluence` (lines 76-199);
pure, since every division is truthiness-guarded. -/
def sellEval (ci : ClassicIndicators) (smc : SmcSignals) (cp op : ℚ)
    (spot : BinanceSpot) (fut : BinanceFutures) (byb : BybitData) :
    SellFlags × List Reason :=
  let ema := emaSellBlock ci
  let macd := macdSellBlock ci
  let rsi := rsiSellBlock ci
  let stoch := stochSellBlock ci
  let bb := bbSellBlock ci
  let bos := bosSellBlock smc
  let fvg := fvgSellBlock smc cp op
  let ob := obSellBlock smc cp op
  let eq := eqHighSellBlock smc cp op
  let wall := askWallBlock spot cp
  let fund := fundingSellBlock fut byb
  let oi := oiSellBlock fut byb cp op
  let ls := lsSellBlock fut byb
  let taker := takerSellBlock fut
  let flags : SellFlags :=
    ⟨ema.1, macd.1, rsi.1, stoch.1, bos.1, fvg.1, ob.1, fvg.2.1, ob.2.1, eq.1, bb.1,
     wall.1, fund.1, oi.1, ls.1, taker.1⟩
  let reasons := ema.2 ++ macd.2 ++ rsi.2 ++ stoch.2 ++ bb.2 ++ bos.2 ++ fvg.2.2 ++
    ob.2.2 ++ eq.2 ++ wall.2 ++ fund.2 ++ oi.2 ++ ls.2 ++ taker.2
  (flags, reasons)

/-- `check_sell_confluence` of `sell_confluence_rules.py` (lines 27-262): a
`None` classic-indicators / SMC / additional-data input raises
`AttributeError` at lines 37 / 45 / 51 respectively. -/
def check_sell_confluence (ci : Option ClassicIndicators) (smc : Option SmcSignals)
    (cp op : ℚ) (aux : Option MarketAux) : Except String SignalStrength :=
  match ci, smc, aux with
  | none, _, _ => .error "AttributeError: NoneType object has no attribute get (classic_indicators)"
  | _, none, _ => .error "AttributeError: NoneType object has no attribute get (smc_signals)"
  | _, _, none => .error "AttributeError: NoneType object has no attribute get (market_data_additional)"
  | some ci, some smc, some aux =>
      let fr := sellEval ci smc cp op aux.binance_spot aux.binance_futures aux.bybit
      .ok (classifySell fr.1 fr.2)

/-! ## Resolution (`logic_engine/confluence_checker.py`) -/

/-- Result dict of `evaluate_market_confluence`. -/
structure ConfluenceResult where
  overall_sentiment : String
  signals : List Reason
  deriving DecidableEq, Repr

/-- The resolution if-chain of `evaluate_market_confluence`
(confluence_checker.py lines 53-104), as a function of the two evaluator
results. -/
def resolveConfluence (b s : SignalStrength) : ConfluenceResult :=
  if b.type = "strong_buy" ∧ s.type ≠ "strong_sell" then ⟨"BULLISH", b.reason⟩
  else if s.type = "strong_sell" ∧ b.type ≠ "strong_buy" then ⟨"BEARISH", s.reason⟩
  else if b.type = "strong_buy" ∧ s.type = "strong_sell" then
    ⟨"CONFLICTING", [.conflictingStrong]⟩
  else if b.type = "moderate_buy" ∧ ¬(s.type = "strong_sell" ∨ s.type = "moderate_sell") then
    ⟨"BULLISH", b.reason⟩
  else if s.type = "moderate_sell" ∧ ¬(b.type = "strong_buy" ∨ b.type = "moderate_buy") then
    ⟨"BEARISH", s.reason⟩
  else if b.type = "moderate_buy" ∧ s.type = "moderate_sell" then
    ⟨"NEUTRAL", [.conflictingModerate]⟩
  else if b.type = "potential_buy" ∧ s.type = "no_signal" then ⟨"NEUTRAL", b.reason⟩
  else if s.type = "potential_sell" ∧ b.type = "no_signal" then ⟨"NEUTRAL", s.reason⟩
  else ⟨"NEUTRAL", [.noClearSignal]⟩

/-- The `market_data` dict passed to `evaluate_market_confluence`.  A `none`
field models the key holding `None`; a key absent altogether behaves as the
`.get(key, {})` default, i.e. as `some` of the empty structure (and as `none`
for the two prices). -/
structure MarketData where
  classic_indicators : Option ClassicIndicators
  smc_signals : Option SmcSignals
  current_price : Option ℚ
  current_open_price : Option ℚ
  market_data_additional : Option MarketAux

/-- `evaluate_market_confluence` of `confluence_checker.py` (lines 17-112):
missing price data short-circuits to `NO_DATA` before either evaluator runs;
otherwise both evaluators run and the resolution if-chain picks the
sentiment. -/
def evaluate_market_confluence (md : MarketData) : Except String ConfluenceResult :=
  match md.current_price, md.current_open_price with
  | some cp, some op => do
      let b ← check_buy_confluence md.classic_indicators md.smc_signals cp op
        md.market_data_additional
      let s ← check_sell_confluence md.classic_indicators md.smc_signals cp op
        md.market_data_additional
      return resolveConfluence b s
  | _, _ => .ok ⟨"NO_DATA", [.errorMissingPrice]⟩

/-! ## Tier bookkeeping used by the tier-priority claims -/

/-- Whether the given tier's predicate holds on buy flags; `no_signal` holds
vacuously, any other string never. -/
def buyTierHolds (f : BuyFlags) (t : String) : Bool :=
  if t = "strong_buy" then strongBuyCond f
  else if t = "moderate_buy" then moderateBuyCond f
  else if t = "potential_buy" then potentialBuyCond f
  else decide (t = "no_signal")

/-- Sell-side analogue of `buyTierHolds`. -/
def sellTierHolds (f : SellFlags) (t : String) : Bool :=
  if t = "strong_sell" then strongSellCond f
  else if t = "moderate_sell" then moderateSellCond f
  else if t = "potential_sell" then potentialSellCond f
  else decide (t = "no_signal")

/-- Numeric rank of a tier name: strong 3, moderate 2, potential 1, rest 0. -/
def tierRank (t : String) : ℕ :=
  if t = "strong_buy" ∨ t = "strong_sell" then 3
  else if t = "moderate_buy" ∨ t = "moderate_sell" then 2
  else if t = "potential_buy" ∨ t = "potential_sell" then 1
  else 0

/-! ## Theorems: zone-entry geometry (claim C4) -/

/-- C4 counterexample: the spec's characterisation of `entering_zone` admits a
pass-through close (open below the zone, close beyond its upper edge), but
`_is_price_entering_zone(95, 120, [100, 108])` is `False`: the code requires
the close to end inside the zone. -/
theorem entering_zone_pass_through_counterexample :
    spec_entering_zone 95 120 100 108 ∧
      is_price_entering_zone 95 120 [100, 108] = false := by
  refine ⟨⟨Or.inl (by norm_num), Or.inr (Or.inl ⟨by norm_num, by norm_num⟩)⟩, ?_⟩
  norm_num [is_price_entering_zone]

/-- C4 amended: `_is_price_entering_zone(open, close, [lo, hi])` is true
exactly when the open lies strictly outside the sorted zone and the close lies
inside it (inclusive); a close that passes fully through the zone does not
count.  The claim's two concrete examples hold:
`entering_zone(95,105,[100,108])` is true and `entering_zone(95,99,[100,108])`
is false. -/
theorem entering_zone_characterisation :
    (∀ o c lo hi : ℚ, lo ≤ hi →
      (is_price_entering_zone o c [lo, hi] = true ↔
        (o < lo ∨ hi < o) ∧ lo ≤ c ∧ c ≤ hi)) ∧
    is_price_entering_zone 95 105 [100, 108] = true ∧
    is_price_entering_zone 95 99 [100, 108] = false := by
  refine ⟨?_, by norm_num [is_price_entering_zone], by norm_num [is_price_entering_zone]⟩
  intro o c lo hi h
  simp only [is_price_entering_zone, min_eq_left h, max_eq_right h,
    Bool.or_eq_true, decide_eq_true_eq]
  constructor
  · rintro (⟨h1, h2, h3⟩ | ⟨h1, h2, h3⟩)
    · exact ⟨Or.inl h1, h2, h3⟩
    · exact ⟨Or.inr h1, h3, h2⟩
  · rintro ⟨h1 | h1, h2, h3⟩
    · exact Or.inl ⟨h1, h2, h3⟩
    · exact Or.inr ⟨h1, h3, h2⟩

/-- C4 witness: the amended characterisation applied at the claim's own
example `(95, 105, [100, 108])`. -/
theorem entering_zone_characterisation_witness :
    is_price_entering_zone 95 105 [100, 108] = true :=
  (entering_zone_characterisation.1 95 105 100 108 (by norm_num)).mpr
    ⟨Or.inl (by norm_num), by norm_num, by norm_num⟩

/-! ## Theorems: conflict resolution (claim C1) -/

/-- C1 counterexample: an equal-tier moderate conflict does not resolve to the
`CONFLICTING` sentinel — the resolution if-chain (confluence_checker.py lines
86-90) maps `(moderate_buy, moderate_sell)` to `NEUTRAL`. -/
theorem moderate_conflict_not_conflicting :
    (resolveConfluence ⟨"moderate_buy", []⟩ ⟨"moderate_sell", []⟩).overall_sentiment
        = "NEUTRAL" ∧
      (resolveConfluence ⟨"moderate_buy", []⟩ ⟨"moderate_sell", []⟩).overall_sentiment
        ≠ "CONFLICTING" := by
  constructor <;> simp [resolveConfluence]

/-- C1 amended: only the strong-tier conflict resolves to `CONFLICTING`; an
equal-tier moderate conflict resolves to `NEUTRAL` (with a conflict note in
the reason list), whatever the evaluators' reason lists were. -/
theorem conflict_tier_resolution :
    ∀ rb rs : List Reason,
      (resolveConfluence ⟨"strong_buy", rb⟩ ⟨"strong_sell", rs⟩).overall_sentiment
          = "CONFLICTING" ∧
        (resolveConfluence ⟨"moderate_buy", rb⟩ ⟨"moderate_sell", rs⟩).overall_sentiment
          = "NEUTRAL" := by
  intro rb rs
  constructor <;> simp [resolveConfluence]

/-! ## Theorems: missing price data (claim C10) -/

/-- C10: a `None` current price or open price short-circuits
`evaluate_market_confluence` to `NO_DATA` with the single error signal,
independently of every other input — neither evaluator is consulted. -/
theorem missing_price_no_data (md : MarketData)
    (h : md.current_price = none ∨ md.current_open_price = none) :
    evaluate_market_confluence md = .ok ⟨"NO_DATA", [.errorMissingPrice]⟩ := by
  unfold evaluate_market_confluence
  rcases hcp : md.current_price with _ | cp
  · rfl
  · rcases hop : md.current_open_price with _ | op
    · rfl
    · rcases h with h | h
      · exact absurd hcp (h ▸ by simp)
      · exact absurd hop (h ▸ by simp)

/-- C10 witness: the theorem applied to a market-data dict whose
`current_price` is `None`. -/
theorem missing_price_no_data_witness :
    evaluate_market_confluence ⟨none, none, none, some 100, none⟩
      = .ok ⟨"NO_DATA", [.errorMissingPrice]⟩ :=
  missing_price_no_data _ (Or.inl rfl)

/-! ## Theorems: tier monotonicity and priority (claim C3) -/

/-- Strong-buy flags also satisfy the moderate and potential predicates. -/
theorem strongBuy_implies_lower (f : BuyFlags) (h : strongBuyCond f = true) :
    moderateBuyCond f = true ∧ potentialBuyCond f = true := by
  simp only [strongBuyCond, moderateBuyCond, potentialBuyCond, Bool.and_eq_true,
    Bool.or_eq_true, decide_eq_true_eq] at h ⊢
  obtain ⟨⟨⟨⟨⟨⟨⟨h1, h2⟩, h3⟩, h4⟩, h5⟩, h6⟩, h7⟩, h8⟩ := h
  have hc : 1 ≤ additionalBuy f := by omega
  exact ⟨by tauto, by tauto⟩

/-- Strong-sell flags also satisfy the moderate and potential predicates. -/
theorem strongSell_implies_lower (f : SellFlags) (h : strongSellCond f = true) :
    moderateSellCond f = true ∧ potentialSellCond f = true := by
  simp only [strongSellCond, moderateSellCond, potentialSellCond, Bool.and_eq_true,
    Bool.or_eq_true, decide_eq_true_eq] at h ⊢
  obtain ⟨⟨⟨⟨⟨⟨⟨h1, h2⟩, h3⟩, h4⟩, h5⟩, h6⟩, h7⟩, h8⟩ := h
  have hc : 1 ≤ additionalSell f := by omega
  exact ⟨by tauto, by tauto⟩

/-- The buy if-chain returns a tier whose predicate indeed holds. -/
theorem classifyBuy_holds (f : BuyFlags) (rb : List Reason) :
    buyTierHolds f (classifyBuy f rb).type = true := by
  unfold classifyBuy
  split_ifs <;> simp_all [buyTierHolds]

/-- The buy if-chain returns the highest satisfied tier. -/
theorem classifyBuy_max (f : BuyFlags) (rb : List Reason) (t : String)
    (ht : buyTierHolds f t = true) :
    tierRank t ≤ tierRank (classifyBuy f rb).type := by
  by_cases e1 : t = "strong_buy"
  · subst e1
    simp only [buyTierHolds] at ht
    norm_num at ht
    simp [classifyBuy, ht, tierRank]
  · by_cases e2 : t = "moderate_buy"
    · subst e2
      simp only [buyTierHolds] at ht
      norm_num at ht
      unfold classifyBuy
      split_ifs <;> simp_all [tierRank]
    · by_cases e3 : t = "potential_buy"
      · subst e3
        simp only [buyTierHolds] at ht
        norm_num at ht
        unfold classifyBuy
        split_ifs <;> simp_all [tierRank]
      · have h0 : tierRank t = 0 := by
          simp only [buyTierHolds, if_neg e1, if_neg e2, if_neg e3,
            decide_eq_true_eq] at ht
          simp [tierRank, ht]
        exact h0 ▸ Nat.zero_le _

/-- The sell if-chain returns a tier whose predicate indeed holds. -/
theorem classifySell_holds (f : SellFlags) (rs : List Reason) :
    sellTierHolds f (classifySell f rs).type = true := by
  unfold classifySell
  split_ifs <;> simp_all [sellTierHolds]

/-- The sell if-chain returns the highest satisfied tier. -/
theorem classifySell_max (f : SellFlags) (rs : List Reason) (t : String)
    (ht : sellTierHolds f t = true) :
    tierRank t ≤ tierRank (classifySell f rs).type := by
  by_cases e1 : t = "strong_sell"
  · subst e1
    simp only [sellTierHolds] at ht
    norm_num at ht
    simp [classifySell, ht, tierRank]
  · by_cases e2 : t = "moderate_sell"
    · subst e2
      simp only [sellTierHolds] at ht
      norm_num at ht
      unfold classifySell
      split_ifs <;> simp_all [tierRank]
    · by_cases e3 : t = "potential_sell"
      · subst e3
        simp only [sellTierHolds] at ht
        norm_num at ht
        unfold classifySell
        split_ifs <;> simp_all [tierRank]
      · have h0 : tierRank t = 0 := by
          simp only [sellTierHolds, if_neg e1, if_neg e2, if_neg e3,
            decide_eq_true_eq] at ht
          simp [tierRank, ht]
        exact h0 ▸ Nat.zero_le _

/-- C3: on any flag assignment, satisfying an evaluator's strong predicate
implies its moderate and potential predicates on the same flags, and the tier
the evaluator returns always ranks at least as high as every satisfied tier
(and itself holds). -/
theorem tier_priority (f : BuyFlags) (g : SellFlags) (rb rs : List Reason) :
    (strongBuyCond f = true → moderateBuyCond f = true ∧ potentialBuyCond f = true) ∧
    (strongSellCond g = true → moderateSellCond g = true ∧ potentialSellCond g = true) ∧
    buyTierHolds f (classifyBuy f rb).type = true ∧
    (∀ t, buyTierHolds f t = true → tierRank t ≤ tierRank (classifyBuy f rb).type) ∧
    sellTierHolds g (classifySell g rs).type = true ∧
    (∀ t, sellTierHolds g t = true → tierRank t ≤ tierRank (classifySell g rs).type) :=
  ⟨strongBuy_implies_lower f, strongSell_implies_lower g,
   classifyBuy_holds f rb, classifyBuy_max f rb,
   classifySell_holds g rs, classifySell_max g rs⟩

/-- All-true buy flags, used as the C3 witness point. -/
def allBuyFlags : BuyFlags :=
  ⟨true, true, true, true, true, true, true, true, true, true, true,
   true, true, true, true, true⟩

/-- All-true sell flags, used as the C3 witness point. -/
def allSellFlags : SellFlags :=
  ⟨true, true, true, true, true, true, true, true, true, true, true,
   true, true, true, true, true⟩

/-- C3 witness: the theorem applied at the all-true flag assignment, whose
strong predicates hold, discharging the implications and the per-tier
quantifier at `"strong_buy"` / `"strong_sell"`. -/
theorem tier_priority_witness :
    (moderateBuyCond allBuyFlags = true ∧ potentialBuyCond allBuyFlags = true) ∧
    (moderateSellCond allSellFlags = true ∧ potentialSellCond allSellFlags = true) ∧
    buyTierHolds allBuyFlags (classifyBuy allBuyFlags []).type = true ∧
    tierRank "strong_buy" ≤ tierRank (classifyBuy allBuyFlags []).type ∧
    tierRank "strong_sell" ≤ tierRank (classifySell allSellFlags []).type :=
  have h := tier_priority allBuyFlags allSellFlags [] []
  ⟨h.1 (by decide), h.2.1 (by decide), h.2.2.1,
   h.2.2.2.1 "strong_buy" (by decide), h.2.2.2.2.2 "strong_sell" (by decide)⟩

/-! ## Theorems: degradation on missing inputs (claim C2) -/

/-- Empty `classic_indicators` dict. -/
def emptyClassic : ClassicIndicators := ⟨none, none, none, none, none, none⟩

/-- With a nonzero current price the bid-wall block cannot raise. -/
theorem bidWall_ok (spot : BinanceSpot) (cp : ℚ) (hcp : cp ≠ 0) :
    ∃ p, bidWallBlock spot cp = .ok p := by
  obtain ⟨ob⟩ := spot
  unfold bidWallBlock
  rcases ob with _ | ⟨bids, asks⟩
  · exact ⟨_, rfl⟩
  · dsimp only
    rcases bids with _ | ⟨b, bs⟩
    · exact ⟨_, rfl⟩
    · dsimp only
      split_ifs <;> simp_all

/-- With a nonzero current price the whole buy flag evaluation succeeds. -/
theorem buyEval_ok (ci : ClassicIndicators) (smc : SmcSignals) (cp op : ℚ)
    (spot : BinanceSpot) (fut : BinanceFutures) (byb : BybitData) (hcp : cp ≠ 0) :
    ∃ p, buyEval ci smc cp op spot fut byb = .ok p := by
  unfold buyEval
  obtain ⟨pw, hw⟩ := bidWall_ok spot cp hcp
  rw [hw]
  exact ⟨_, rfl⟩

/-- A reason handed to the buy classifier survives into the returned list. -/
theorem classifyBuy_reason_mem (f : BuyFlags) (rs : List Reason) (r : Reason)
    (h : r ∈ rs) : r ∈ (classifyBuy f rs).reason := by
  unfold classifyBuy
  split_ifs <;> simp [h]

/-- C2 counterexample: `check_sell_confluence` with `None` classic indicators
raises `AttributeError` instead of degrading — the sell evaluator has none of
the buy evaluator's `None` guards. -/
theorem sell_confluence_none_raises :
    check_sell_confluence none (some emptySmc) 100 100 none
      = .error "AttributeError: NoneType object has no attribute get (classic_indicators)" :=
  rfl

/-- C2 amended: only `check_buy_confluence` degrades gracefully on a `None`
category input.  `None` classic indicators return `no_signal` with the
data-missing reason; `None` SMC signals (for nonzero current price) and `None`
additional data return a well-formed result carrying the data-missing reason;
the missing category's confluence flags all default to false — except the
long/short-ratio flag, which is true on missing auxiliary data because the
default ratio 1.0 lies inside the bullish band (0.95, 1.05).
`check_sell_confluence` instead raises `AttributeError` whenever any of the
three category inputs is `None`. -/
theorem none_input_degradation :
    (∀ smc cp op aux, check_buy_confluence none smc cp op aux
        = .ok ⟨"no_signal", [.classicDataMissing]⟩) ∧
    (∀ ci cp op aux, cp ≠ 0 →
      ∃ ss, check_buy_confluence (some ci) none cp op aux = .ok ss ∧
        Reason.smcDataMissing ∈ ss.reason) ∧
    (∀ ci smc cp op,
      ∃ ss, check_buy_confluence (some ci) smc cp op none = .ok ss ∧
        Reason.additionalDataMissing ∈ ss.reason) ∧
    (∀ cp op, (bosBuyBlock emptySmc).1 = false ∧
      (fvgBuyBlock emptySmc cp op).1 = false ∧ (fvgBuyBlock emptySmc cp op).2.1 = false ∧
      (obBuyBlock emptySmc cp op).1 = false ∧ (obBuyBlock emptySmc cp op).2.1 = false ∧
      (eqLowBuyBlock emptySmc cp op).1 = false) ∧
    (∀ cp op, bidWallBlock emptySpot cp = .ok (false, []) ∧
      (fundingBuyBlock emptyFutures emptyBybit).1 = false ∧
      (oiBuyBlock emptyFutures emptyBybit cp op).1 = false ∧
      (takerBuyBlock emptyFutures).1 = false ∧
      (lsBuyBlock emptyFutures emptyBybit).1 = true) ∧
    (∀ smc cp op aux, ∃ e, check_sell_confluence none smc cp op aux = .error e) ∧
    (∀ ci cp op aux, ∃ e, check_sell_confluence (some ci) none cp op aux = .error e) ∧
    (∀ ci smc cp op, ∃ e, check_sell_confluence (some ci) (some smc) cp op none
        = .error e) := by
  refine ⟨?_, ?_, ?_, ?_, ?_, ?_, ?_, ?_⟩
  · intro smc cp op aux
    rfl
  · intro ci cp op aux hcp
    rcases aux with _ | a
    · obtain ⟨p, hp⟩ := buyEval_ok ci emptySmc cp op emptySpot emptyFutures emptyBybit hcp
      exact ⟨classifyBuy p.1 ([.smcDataMissing] ++ [.additionalDataMissing] ++ p.2),
        by simp [check_buy_confluence, hp], classifyBuy_reason_mem _ _ _ (by simp)⟩
    · obtain ⟨p, hp⟩ :=
        buyEval_ok ci emptySmc cp op a.binance_spot a.binance_futures a.bybit hcp
      exact ⟨classifyBuy p.1 ([.smcDataMissing] ++ p.2),
        by simp [check_buy_confluence, hp], classifyBuy_reason_mem _ _ _ (by simp)⟩
  · intro ci smc cp op
    rcases smc with _ | s
    · obtain ⟨p, hp⟩ :
          ∃ p, buyEval ci emptySmc cp op emptySpot emptyFutures emptyBybit = .ok p :=
        ⟨_, rfl⟩
      exact ⟨classifyBuy p.1 ([.smcDataMissing] ++ [.additionalDataMissing] ++ p.2),
        by simp [check_buy_confluence, hp], classifyBuy_reason_mem _ _ _ (by simp)⟩
    · obtain ⟨p, hp⟩ :
          ∃ p, buyEval ci s cp op emptySpot emptyFutures emptyBybit = .ok p :=
        ⟨_, rfl⟩
      exact ⟨classifyBuy p.1 ([.additionalDataMissing] ++ p.2),
        by simp [check_buy_confluence, hp], classifyBuy_reason_mem _ _ _ (by simp)⟩
  · intro cp op
    refine ⟨rfl, rfl, rfl, rfl, rfl, rfl⟩
  · intro cp op
    refine ⟨rfl, ?_, ?_, ?_, ?_⟩
    · norm_num [fundingBuyBlock, emptyFutures, emptyBybit, FUNDING_RATE_THRESHOLD_POSITIVE]
    · norm_num [oiBuyBlock, emptyFutures, emptyBybit, OPEN_INTEREST_HIGH_THRESHOLD]
    · norm_num [takerBuyBlock, emptyFutures, TAKER_VOLUME_BULLISH_THRESHOLD]
    · norm_num [lsBuyBlock, emptyFutures, emptyBybit,
        LONG_SHORT_RATIO_BULLISH_BIAS_MAX, LONG_SHORT_RATIO_BULLISH_BIAS_MIN]
  · intro smc cp op aux
    rcases smc with _ | s <;> rcases aux with _ | a <;> exact ⟨_, rfl⟩
  · intro ci cp op aux
    rcases aux with _ | a <;> exact ⟨_, rfl⟩
  · intro ci smc cp op
    exact ⟨_, rfl⟩

/-- C2 witness: the amended theorem applied at concrete inputs — current price
100 (nonzero), empty dicts elsewhere. -/
theorem none_input_degradation_witness :
    check_buy_confluence none (some emptySmc) 100 100 none
        = .ok ⟨"no_signal", [.classicDataMissing]⟩ ∧
      (∃ ss, check_buy_confluence (some emptyClassic) none 100 100 none = .ok ss ∧
        Reason.smcDataMissing ∈ ss.reason) ∧
      (∃ ss, check_buy_confluence (some emptyClassic) (some emptySmc) 100 100 none
          = .ok ss ∧ Reason.additionalDataMissing ∈ ss.reason) ∧
      (lsBuyBlock emptyFutures emptyBybit).1 = true ∧
      (∃ e, check_sell_confluence none (some emptySmc) 100 100 none = .error e) :=
  have h := none_input_degradation
  ⟨h.1 (some emptySmc) 100 100 none,
   h.2.1 emptyClassic 100 100 none (by norm_num),
   h.2.2.1 emptyClassic (some emptySmc) 100 100,
   (h.2.2.2.2.1 100 100).2.2.2.2,
   h.2.2.2.2.2.1 (some emptySmc) 100 100 none⟩

/-! ## Theorems: bullish/bearish mirror symmetry (claim C8)

The bullish↔bearish mirror of an input fixture is a construct of the spec,
not of the source; it is modelled here from the spec's words. -/

/-- Modelled from the spec: the bearish mirror of each bullish signal label
used by the evaluators, and vice versa; other labels are self-mirrored. -/
def mirrorLabel (l : String) : String :=
  if l = "strong_bullish" then "strong_bearish"
  else if l = "strong_bearish" then "strong_bullish"
  else if l = "bullish" then "bearish"
  else if l = "bearish" then "bullish"
  else if l = "oversold_bullish_cross" then "overbought_bearish_cross"
  else if l = "overbought_bearish_cross" then "oversold_bullish_cross"
  else if l = "cross_above_middle" then "cross_below_middle"
  else if l = "cross_below_middle" then "cross_above_middle"
  else if l = "bounce_from_lower" then "bounce_from_upper"
  else if l = "bounce_from_upper" then "bounce_from_lower"
  else if l = "cross_above_lower_band" then "cross_below_upper_band"
  else if l = "cross_below_upper_band" then "cross_above_lower_band"
  else if l = "outside_lower_band" then "outside_upper_band"
  else if l = "outside_upper_band" then "outside_lower_band"
  else if l = "bullish_bos" then "bearish_bos"
  else if l = "bearish_bos" then "bullish_bos"
  else if l = "bullish_choch" then "bearish_choch"
  else if l = "bearish_choch" then "bullish_choch"
  else if l = "bullish_choch_potential" then "bearish_choch_potential"
  else if l = "bearish_choch_potential" then "bullish_choch_potential"
  else if l = "bullish_fvg" then "bearish_fvg"
  else if l = "bearish_fvg" then "bullish_fvg"
  else l

/-- Modelled from the spec: prices are mirrored by reflection about the
current price `c`, which keeps the current price a fixed point. -/
def mirrorPrice (c p : ℚ) : ℚ := 2 * c - p

/-- Modelled from the spec: the mirror of the indicator snapshot — labels
swapped, RSI reflected about its midline 50. -/
def mirrorClassic (ci : ClassicIndicators) : ClassicIndicators :=
  ⟨ci.ema_signal.map mirrorLabel, ci.macd_trend.map mirrorLabel,
   ci.rsi_signal.map mirrorLabel, ci.stoch_signal.map mirrorLabel,
   ci.bb_signal.map mirrorLabel, ci.rsi.map (fun v => 100 - v)⟩

/-- Modelled from the spec: the mirror of an order-block zone (its two edges
reflected, which swaps low and high). -/
def mirrorOb (c : ℚ) (o : ObData) : ObData :=
  ⟨o.high.map (mirrorPrice c), o.low.map (mirrorPrice c)⟩

/-- Modelled from the spec: the mirror of the SMC signals — break and FVG
types swapped, zones reflected, bullish and bearish order blocks exchanged,
equal-low and equal-high pools exchanged. -/
def mirrorSmc (c : ℚ) (smc : SmcSignals) : SmcSignals :=
  ⟨smc.bos_choch.map (fun b => ⟨b.type.map mirrorLabel⟩),
   smc.fvg.map (fun f => ⟨f.type.map mirrorLabel, f.zone.map (mirrorPrice c)⟩),
   smc.order_block.map (fun o =>
     ⟨o.bearish_ob.map (mirrorOb c), o.bullish_ob.map (mirrorOb c)⟩),
   smc.eq_zone.map (fun e =>
     ⟨e.eq_high.map (mirrorPrice c), e.eq_low.map (mirrorPrice c)⟩)⟩

/-- Modelled from the spec: the mirror of the auxiliary market data — bids
and asks exchanged (prices reflected), funding rates negated, open interest
kept, taker buy/sell ratio complemented, long/short ratios inverted. -/
def mirrorAux (c : ℚ) (a : MarketAux) : MarketAux :=
  ⟨⟨a.binance_spot.orderbook.map (fun ob =>
      ⟨ob.asks.map (fun p => (mirrorPrice c p.1, p.2)),
       ob.bids.map (fun p => (mirrorPrice c p.1, p.2))⟩)⟩,
   ⟨a.binance_futures.funding_rate.map Neg.neg,
    a.binance_futures.open_interest,
    a.binance_futures.taker_buy_sell_volume.map (fun r => 1 - r),
    a.binance_futures.long_short_account_ratio.map (fun r => 1 / r)⟩,
   ⟨a.bybit.funding_rate.map Neg.neg,
    a.bybit.open_interest,
    a.bybit.long_short_ratio.map (fun r => 1 / r)⟩⟩

/-- Modelled from the spec: the bullish↔bearish mirror of a whole
`market_data` fixture, reflecting prices about the current price. -/
def mirror_market_data (md : MarketData) : MarketData :=
  let c := md.current_price.getD 0
  ⟨md.classic_indicators.map mirrorClassic,
   md.smc_signals.map (mirrorSmc c),
   md.current_price,
   md.current_open_price.map (mirrorPrice c),
   md.market_data_additional.map (mirrorAux c)⟩

/-- BULLISH ↔ BEARISH; every other sentiment is its own mirror. -/
def flipSentiment (s : String) : String :=
  if s = "BULLISH" then "BEARISH" else if s = "BEARISH" then "BULLISH" else s

/-- Buy-tier name corresponding to a sell tier. -/
def buyTierOf (t : String) : String :=
  if t = "strong_sell" then "strong_buy"
  else if t = "moderate_sell" then "moderate_buy"
  else if t = "potential_sell" then "potential_buy" else t

/-- Sell-tier name corresponding to a buy tier. -/
def sellTierOf (t : String) : String :=
  if t = "strong_buy" then "strong_sell"
  else if t = "moderate_buy" then "moderate_sell"
  else if t = "potential_buy" then "potential_sell" else t

/-- The C8 fixture: a numerically self-symmetric moderate-buy scene.  Every
numeric datum sits at the fixed point of any reasonable mirror (current price
= open price = 100, FVG zone symmetric about 100, RSI 50, funding 0, taker
ratio 0.5, long/short ratios 1.0), so its mirror differs only in the swapped
labels. -/
def ciX : ClassicIndicators :=
  { ema_signal := some "strong_bullish", macd_trend := some "bullish",
    rsi_signal := none, stoch_signal := some "neutral",
    bb_signal := some "normal", rsi := some 50 }

/-- SMC part of the C8 fixture. -/
def smcX : SmcSignals :=
  { bos_choch := some ⟨some "bullish_bos"⟩,
    fvg := some ⟨some "bullish_fvg", [95, 105]⟩,
    order_block := none, eq_zone := none }

/-- Binance-futures part of the C8 fixture. -/
def futX : BinanceFutures :=
  { funding_rate := some 0, open_interest := some 0,
    taker_buy_sell_volume := some 0.5, long_short_account_ratio := some 1 }

/-- Bybit part of the C8 fixture. -/
def bybX : BybitData :=
  { funding_rate := some 0, open_interest := some 0, long_short_ratio := some 1 }

/-- Auxiliary-data part of the C8 fixture. -/
def auxX : MarketAux := ⟨⟨none⟩, futX, bybX⟩

/-- The C8 fixture as a `market_data` dict. -/
def mdX : MarketData := ⟨some ciX, some smcX, some 100, some 100, some auxX⟩

/-- The mirrored indicator snapshot of the C8 fixture (labels swapped, RSI
reflected: 100 - 50 = 50). -/
def ciY : ClassicIndicators :=
  { ema_signal := some "strong_bearish", macd_trend := some "bearish",
    rsi_signal := none, stoch_signal := some "neutral",
    bb_signal := some "normal", rsi := some 50 }

/-- The mirrored SMC signals of the C8 fixture (types swapped, zone reflected
about 100). -/
def smcY : SmcSignals :=
  { bos_choch := some ⟨some "bearish_bos"⟩,
    fvg := some ⟨some "bearish_fvg", [105, 95]⟩,
    order_block := none, eq_zone := none }

/-- The mirrored C8 fixture; its auxiliary data mirrors to itself (funding 0,
taker 0.5 and ratio 1.0 are fixed points). -/
def mdY : MarketData := ⟨some ciY, some smcY, some 100, some 100, some auxX⟩

/-- C8 counterexample: the numerically self-symmetric fixture `mdX` resolves
to BULLISH, but its bullish↔bearish mirror resolves to NEUTRAL, not BEARISH:
the buy side's moderate tier was carried by the long/short-ratio balanced-band
flag (ratio 1.0 ∈ (0.95, 1.05)), which has no bearish counterpart — the sell
band requires a ratio above 1.10. -/
theorem mirror_fixture_not_flipped :
    (evaluate_market_confluence mdX).map ConfluenceResult.overall_sentiment
        = .ok "BULLISH" ∧
      (evaluate_market_confluence (mirror_market_data mdX)).map
          ConfluenceResult.overall_sentiment = .ok "NEUTRAL" := by
  have hmd : mirror_market_data mdX = mdY := by
    norm_num [mirror_market_data, mirrorClassic, mirrorSmc, mirrorAux, mirrorLabel,
      mirrorPrice, mdX, mdY, ciX, ciY, smcX, smcY, auxX, futX, bybX]
    all_goals simp
  have hb1 : buyEval ciX smcX 100 100 ⟨none⟩ futX bybX =
      .ok (⟨true, true, true, false, true, true, false, true, false, false, false,
            false, false, false, true, false⟩,
           [.emaTrend "strong_bullish", .macdBullish, .rsiNotOverbought 50,
            .smcBreak "bullish_bos", .fvgBullishPresent, .priceReactingFvgBull,
            .lsRatioBullish]) := by
    norm_num [buyEval, emaBuyBlock, macdBuyBlock, rsiBuyBlock, stochBuyBlock, bbBuyBlock,
      bosBuyBlock, fvgBuyBlock, obBuyBlock, eqLowBuyBlock, bidWallBlock, fundingBuyBlock,
      oiBuyBlock, lsBuyBlock, takerBuyBlock, ciX, smcX, futX, bybX, is_price_in_zone,
      is_price_near_zone, is_price_entering_zone, listMax, listMin,
      FUNDING_RATE_THRESHOLD_POSITIVE, OPEN_INTEREST_HIGH_THRESHOLD,
      LONG_SHORT_RATIO_BULLISH_BIAS_MAX, LONG_SHORT_RATIO_BULLISH_BIAS_MIN,
      TAKER_VOLUME_BULLISH_THRESHOLD, PRICE_NEAR_ZONE_TOLERANCE_OB]
    simp
  have hs1 : sellEval ciX smcX 100 100 ⟨none⟩ futX bybX =
      (⟨false, false, true, false, false, false, false, false, false, false, false,
        false, false, false, false, false⟩,
       [.rsiNotOversold 50]) := by
    norm_num [sellEval, emaSellBlock, macdSellBlock, rsiSellBlock, stochSellBlock,
      bbSellBlock, bosSellBlock, fvgSellBlock, obSellBlock, eqHighSellBlock, askWallBlock,
      fundingSellBlock, oiSellBlock, lsSellBlock, takerSellBlock, ciX, smcX, futX, bybX,
      is_price_in_zone, is_price_near_zone, is_price_entering_zone, listMax, listMin,
      FUNDING_RATE_THRESHOLD_NEGATIVE, OPEN_INTEREST_HIGH_THRESHOLD,
      LONG_SHORT_RATIO_BEARISH_BIAS_MIN, LONG_SHORT_RATIO_BEARISH_BIAS_MAX,
      TAKER_VOLUME_BEARISH_THRESHOLD, PRICE_NEAR_ZONE_TOLERANCE_OB]
    simp
  have hb2 : buyEval ciY smcY 100 100 ⟨none⟩ futX bybX =
      .ok (⟨false, false, true, false, false, false, false, false, false, false, false,
            false, false, false, true, false⟩,
           [.rsiNotOverbought 50, .lsRatioBullish]) := by
    norm_num [buyEval, emaBuyBlock, macdBuyBlock, rsiBuyBlock, stochBuyBlock, bbBuyBlock,
      bosBuyBlock, fvgBuyBlock, obBuyBlock, eqLowBuyBlock, bidWallBlock, fundingBuyBlock,
      oiBuyBlock, lsBuyBlock, takerBuyBlock, ciY, smcY, futX, bybX, is_price_in_zone,
      is_price_near_zone, is_price_entering_zone, listMax, listMin,
      FUNDING_RATE_THRESHOLD_POSITIVE, OPEN_INTEREST_HIGH_THRESHOLD,
      LONG_SHORT_RATIO_BULLISH_BIAS_MAX, LONG_SHORT_RATIO_BULLISH_BIAS_MIN,
      TAKER_VOLUME_BULLISH_THRESHOLD, PRICE_NEAR_ZONE_TOLERANCE_OB]
    simp
  have hs2 : sellEval ciY smcY 100 100 ⟨none⟩ futX bybX =
      (⟨true, true, true, false, true, true, false, true, false, false, false,
        false, false, false, false, false⟩,
       [.emaTrend "strong_bearish", .macdBearish, .rsiNotOversold 50,
        .smcBreak "bearish_bos", .fvgBearishPresent, .priceReactingFvgBear]) := by
    norm_num [sellEval, emaSellBlock, macdSellBlock, rsiSellBlock, stochSellBlock,
      bbSellBlock, bosSellBlock, fvgSellBlock, obSellBlock, eqHighSellBlock, askWallBlock,
      fundingSellBlock, oiSellBlock, lsSellBlock, takerSellBlock, ciY, smcY, futX, bybX,
      is_price_in_zone, is_price_near_zone, is_price_entering_zone, listMax, listMin,
      FUNDING_RATE_THRESHOLD_NEGATIVE, OPEN_INTEREST_HIGH_THRESHOLD,
      LONG_SHORT_RATIO_BEARISH_BIAS_MIN, LONG_SHORT_RATIO_BEARISH_BIAS_MAX,
      TAKER_VOLUME_BEARISH_THRESHOLD, PRICE_NEAR_ZONE_TOLERANCE_OB]
    simp
  have hcb1 : check_buy_confluence (some ciX) (some smcX) 100 100 (some auxX)
      = .ok (classifyBuy
          ⟨true, true, true, false, true, true, false, true, false, false, false,
           false, false, false, true, false⟩
          [.emaTrend "strong_bullish", .macdBullish, .rsiNotOverbought 50,
           .smcBreak "bullish_bos", .fvgBullishPresent, .priceReactingFvgBull,
           .lsRatioBullish]) := by
    simp only [check_buy_confluence]
    dsimp only [auxX]
    rw [hb1]
    rfl
  have hcs1 : check_sell_confluence (some ciX) (some smcX) 100 100 (some auxX)
      = .ok (classifySell
          ⟨false, false, true, false, false, false, false, false, false, false, false,
           false, false, false, false, false⟩
          [.rsiNotOversold 50]) := by
    simp only [check_sell_confluence]
    dsimp only [auxX]
    rw [hs1]
  have hcb2 : check_buy_confluence (some ciY) (some smcY) 100 100 (some auxX)
      = .ok (classifyBuy
          ⟨false, false, true, false, false, false, false, false, false, false, false,
           false, false, false, true, false⟩
          [.rsiNotOverbought 50, .lsRatioBullish]) := by
    simp only [check_buy_confluence]
    dsimp only [auxX]
    rw [hb2]
    rfl
  have hcs2 : check_sell_confluence (some ciY) (some smcY) 100 100 (some auxX)
      = .ok (classifySell
          ⟨true, true, true, false, true, true, false, true, false, false, false,
           false, false, false, false, false⟩
          [.emaTrend "strong_bearish", .macdBearish, .rsiNotOversold 50,
           .smcBreak "bearish_bos", .fvgBearishPresent, .priceReactingFvgBear]) := by
    simp only [check_sell_confluence]
    dsimp only [auxX]
    rw [hs2]
  refine ⟨?_, ?_⟩
  · simp only [evaluate_market_confluence, mdX]
    rw [hcb1, hcs1]
    norm_num [classifyBuy, classifySell, strongBuyCond, moderateBuyCond, potentialBuyCond,
      strongSellCond, moderateSellCond, potentialSellCond, additionalBuy, additionalSell,
      resolveConfluence, Except.map, Except.bind, bind, pure, Except.pure]
    simp
  · rw [hmd]
    simp only [evaluate_market_confluence, mdY]
    rw [hcb2, hcs2]
    norm_num [classifyBuy, classifySell, strongBuyCond, moderateBuyCond, potentialBuyCond,
      strongSellCond, moderateSellCond, potentialSellCond, additionalBuy, additionalSell,
      resolveConfluence, Except.map, Except.bind, bind, pure, Except.pure]
    simp

/-- C8 amended: the mirror symmetry does hold at the resolution stage — for
any pair of evaluator tiers, swapping the buy tier with the corresponding
sell tier flips BULLISH ⇄ BEARISH (and fixes the other sentiments) — but the
evaluators themselves are not mirror images, so mirroring the raw inputs can
change the resolved sentiment (see the counterexample). -/
theorem resolution_mirror_symmetry :
    ∀ bt st : String, ∀ rb rs rb' rs' : List Reason,
      bt ∈ ["strong_buy", "moderate_buy", "potential_buy", "no_signal"] →
      st ∈ ["strong_sell", "moderate_sell", "potential_sell", "no_signal"] →
      (resolveConfluence ⟨buyTierOf st, rb'⟩ ⟨sellTierOf bt, rs'⟩).overall_sentiment
        = flipSentiment (resolveConfluence ⟨bt, rb⟩ ⟨st, rs⟩).overall_sentiment := by
  intro bt st rb rs rb' rs' hb hs
  simp only [List.mem_cons, List.not_mem_nil, or_false] at hb hs
  rcases hb with rfl | rfl | rfl | rfl <;> rcases hs with rfl | rfl | rfl | rfl <;>
    simp [resolveConfluence, buyTierOf, sellTierOf, flipSentiment]

/-- C8 witness: the resolution symmetry applied at the (strong_buy, no_signal)
tier pair. -/
theorem resolution_mirror_symmetry_witness :
    (resolveConfluence ⟨buyTierOf "no_signal", []⟩
        ⟨sellTierOf "strong_buy", []⟩).overall_sentiment
      = flipSentiment
          (resolveConfluence ⟨"strong_buy", []⟩ ⟨"no_signal", []⟩).overall_sentiment :=
  resolution_mirror_symmetry "strong_buy" "no_signal" [] [] [] [] (by simp) (by simp)

/-! ## SMC structure analyzer (`logic_engine/analyzers/smc_structure.py`)

A price series is a `List Bar`; the pandas timestamp index is modelled by the
bar's position `0, 1, …`, which is faithful for the uniformly spaced series
the module assumes (it converts timestamp differences to bar counts by
dividing by `df.index[1] - df.index[0]`). -/

/-- One OHLC bar; `op`/`hi`/`lo`/`cl` are the `open`/`high`/`low`/`close`
columns (`open` is a Lean keyword). -/
structure Bar where
  op : ℚ
  hi : ℚ
  lo : ℚ
  cl : ℚ
  deriving DecidableEq, Repr

/-- `df.iloc[i]` / `df.loc[ts]`; out-of-range indices never occur in the
modelled executions (pandas would raise). -/
def barAt (df : List Bar) (i : ℕ) : Bar := df.getD i ⟨0, 0, 0, 0⟩

/-- One entry of `all_unmitigated_fvg`: type, `zone` pair and the timestamp of
the middle candle (`df.index[i+1]`). -/
structure FvgEntry where
  type : String
  zone : List ℚ
  timestamp : ℕ
  deriving DecidableEq, Repr

/-- The `fvg_info` result dict of `detect_fvg`. -/
structure FvgInfo where
  type : String
  zone : Option (List ℚ)
  timestamp : Option ℕ
  all_unmitigated_fvg : List FvgEntry
  deriving DecidableEq, Repr

/-- The three-candle gap test of `detect_fvg` (lines 183-192): bullish when
`candle1.high < candle3.low` (zone low-to-high), else bearish when
`candle1.low > candle3.high`. -/
def fvgAt (df : List Bar) (i : ℕ) : Option (String × ℚ × ℚ) :=
  let c1 := barAt df i
  let c3 := barAt df (i + 2)
  if c1.hi < c3.lo then some ("bullish_fvg", c1.hi, c3.lo)
  else if c3.hi < c1.lo then some ("bearish_fvg", c3.hi, c1.lo)
  else none

/-- The forward mitigation scan of `detect_fvg` (lines 197-207): some bar from
position `i+3` on overlaps the zone `[z0, z1]` (the source tests the same
overlap formula for both gap directions). -/
def fvgMitigated (df : List Bar) (i : ℕ) (z0 z1 : ℚ) : Bool :=
  (List.range' (i + 3) (df.length - (i + 3))).any fun j =>
    decide ((barAt df j).lo ≤ z1 ∧ z0 ≤ (barAt df j).hi)

/-- `detect_fvg` of `smc_structure.py` (lines 159-225): scans triplets from
the most recent backward, collects unmitigated gaps (so the first hit is the
most recent, surfaced as the primary signal) and finally reverses the list
into oldest-to-newest order. -/
def detect_fvg (df : List Bar) : FvgInfo :=
  if df.length < 3 then ⟨"no_fvg", none, none, []⟩
  else
    let entries := ((List.range (df.length - 2)).reverse).filterMap fun i =>
      match fvgAt df i with
      | some (ty, z0, z1) =>
          if fvgMitigated df i z0 z1 then none else some ⟨ty, [z0, z1], i + 1⟩
      | none => none
    match entries with
    | [] => ⟨"no_fvg", none, none, []⟩
    | e :: _ => ⟨e.type, some e.zone, some e.timestamp, entries.reverse⟩

/-! ## Theorems: FVG lifecycle (claim C5) -/

/-- Both branches of `detect_fvg` expose the reversed backward scan as
`all_unmitigated_fvg` (the empty case trivially so). -/
theorem detect_fvg_all_eq (df : List Bar) (h3 : 3 ≤ df.length) :
    (detect_fvg df).all_unmitigated_fvg =
      (((List.range (df.length - 2)).reverse).filterMap fun i =>
        match fvgAt df i with
        | some (ty, z0, z1) =>
            if fvgMitigated df i z0 z1 then none else some ⟨ty, [z0, z1], i + 1⟩
        | none => none).reverse := by
  unfold detect_fvg
  rw [if_neg (by omega)]
  generalize (((List.range (df.length - 2)).reverse).filterMap fun i =>
      match fvgAt df i with
      | some (ty, z0, z1) =>
          if fvgMitigated df i z0 z1 then none
          else some (⟨ty, [z0, z1], i + 1⟩ : FvgEntry)
      | none => none) = es
  cases es <;> rfl

/-- Membership in `all_unmitigated_fvg` in terms of the per-position scan. -/
theorem mem_detect_fvg (df : List Bar) (h3 : 3 ≤ df.length) (e : FvgEntry) :
    e ∈ (detect_fvg df).all_unmitigated_fvg ↔
      ∃ i, i + 2 < df.length ∧
        (match fvgAt df i with
          | some (ty, z0, z1) =>
              if fvgMitigated df i z0 z1 then none else some (⟨ty, [z0, z1], i + 1⟩ : FvgEntry)
          | none => none) = some e := by
  rw [detect_fvg_all_eq df h3]
  simp only [List.mem_reverse, List.mem_filterMap, List.mem_range]
  constructor
  · rintro ⟨i, hi, hf⟩
    exact ⟨i, by omega, hf⟩
  · rintro ⟨i, hi, hf⟩
    exact ⟨i, by omega, hf⟩




/-- C5: on a series of at least three bars with well-formed OHLC
(`low ≤ high`), the bullish gap entry for position `i` (zone
`[bar i .high, bar (i+2) .low]`, timestamp `i+1`) is in `all_unmitigated_fvg`
exactly when `bar i .high < bar (i+2) .low` and no bar after position `i+2`
overlaps the zone; and the mirrored statement for the bearish gap. -/
theorem fvg_lifecycle (df : List Bar) (h3 : 3 ≤ df.length)
    (hwf : ∀ b ∈ df, b.lo ≤ b.hi) (i : ℕ) (hi2 : i + 2 < df.length) :
    ((⟨"bullish_fvg", [(barAt df i).hi, (barAt df (i + 2)).lo], i + 1⟩ : FvgEntry)
        ∈ (detect_fvg df).all_unmitigated_fvg ↔
      ((barAt df i).hi < (barAt df (i + 2)).lo ∧
        ∀ j, i + 3 ≤ j → j < df.length →
          ¬((barAt df j).lo ≤ (barAt df (i + 2)).lo ∧
            (barAt df i).hi ≤ (barAt df j).hi))) ∧
    ((⟨"bearish_fvg", [(barAt df (i + 2)).hi, (barAt df i).lo], i + 1⟩ : FvgEntry)
        ∈ (detect_fvg df).all_unmitigated_fvg ↔
      ((barAt df (i + 2)).hi < (barAt df i).lo ∧
        ∀ j, i + 3 ≤ j → j < df.length →
          ¬((barAt df j).lo ≤ (barAt df i).lo ∧
            (barAt df (i + 2)).hi ≤ (barAt df j).hi))) := by
  have hbar : ∀ k, k < df.length → (barAt df k).lo ≤ (barAt df k).hi := by
    intro k hk
    apply hwf
    unfold barAt
    rw [List.getD_eq_getElem _ _ hk]
    exact List.getElem_mem hk
  have hunmit : ∀ z0 z1 : ℚ, (fvgMitigated df i z0 z1 = false ↔
      ∀ j, i + 3 ≤ j → j < df.length →
        ¬((barAt df j).lo ≤ z1 ∧ z0 ≤ (barAt df j).hi)) := by
    intro z0 z1
    rw [← Bool.not_eq_true]
    simp only [fvgMitigated, List.any_eq_true, List.mem_range'_1, decide_eq_true_eq,
      not_exists]
    constructor
    · intro h j hj1 hj2 hc
      exact h j ⟨⟨hj1, by omega⟩, hc⟩
    · rintro h j ⟨⟨hj1, hj2⟩, hc⟩
      exact h j hj1 (by omega) hc
  constructor
  · rw [mem_detect_fvg df h3]
    constructor
    · rintro ⟨k, hk, hf⟩
      rcases hfa : fvgAt df k with _ | ⟨ty, z0, z1⟩
      · rw [hfa] at hf
        simp at hf
      · rw [hfa] at hf
        by_cases hm : fvgMitigated df k z0 z1 = true
        · simp [hm] at hf
        · simp only [if_neg hm, Option.some.injEq, FvgEntry.mk.injEq] at hf
          obtain ⟨hty, hz, hts⟩ := hf
          have hkeq : k = i := by omega
          subst hkeq hty
          simp only [List.cons.injEq, and_true] at hz
          obtain ⟨hz0, hz1⟩ := hz
          subst hz0 hz1
          unfold fvgAt at hfa
          dsimp only at hfa
          split_ifs at hfa with h1 h2
          · exact ⟨h1, (hunmit _ _).mp (Bool.eq_false_iff.mpr hm)⟩
          all_goals simp at hfa
    · rintro ⟨hcond, hforall⟩
      refine ⟨i, hi2, ?_⟩
      have hfa : fvgAt df i
          = some ("bullish_fvg", (barAt df i).hi, (barAt df (i + 2)).lo) := by
        unfold fvgAt
        rw [if_pos hcond]
      rw [hfa]
      have hm := (hunmit _ _).mpr hforall
      simp [hm]
  · rw [mem_detect_fvg df h3]
    constructor
    · rintro ⟨k, hk, hf⟩
      rcases hfa : fvgAt df k with _ | ⟨ty, z0, z1⟩
      · rw [hfa] at hf
        simp at hf
      · rw [hfa] at hf
        by_cases hm : fvgMitigated df k z0 z1 = true
        · simp [hm] at hf
        · simp only [if_neg hm, Option.some.injEq, FvgEntry.mk.injEq] at hf
          obtain ⟨hty, hz, hts⟩ := hf
          have hkeq : k = i := by omega
          subst hkeq hty
          simp only [List.cons.injEq, and_true] at hz
          obtain ⟨hz0, hz1⟩ := hz
          subst hz0 hz1
          unfold fvgAt at hfa
          dsimp only at hfa
          split_ifs at hfa with h1 h2
          · simp at hfa
          · exact ⟨h2, (hunmit _ _).mp (Bool.eq_false_iff.mpr hm)⟩
    · rintro ⟨hcond, hforall⟩
      refine ⟨i, hi2, ?_⟩
      have hnb : ¬((barAt df i).hi < (barAt df (i + 2)).lo) := by
        have ha := hbar i (by omega)
        have hb := hbar (i + 2) hi2
        intro hlt
        linarith
      have hfa : fvgAt df i
          = some ("bearish_fvg", (barAt df (i + 2)).hi, (barAt df i).lo) := by
        unfold fvgAt
        rw [if_neg hnb, if_pos hcond]
      rw [hfa]
      have hm := (hunmit _ _).mpr hforall
      simp [hm]

/-- Three-bar series of the claim's example: bar0.high = 100, bar2.low = 110. -/
def dfW3 : List Bar :=
  [⟨99, 100, 98, 99⟩, ⟨100, 104, 99, 103⟩, ⟨111, 115, 110, 114⟩]

/-- The same series with a fourth bar of low 105, which mitigates the gap. -/
def dfW4 : List Bar :=
  [⟨99, 100, 98, 99⟩, ⟨100, 104, 99, 103⟩, ⟨111, 115, 110, 114⟩, ⟨106, 112, 105, 111⟩]

/-- C5 witness: on the claim's example the bullish gap `[100, 110]` at
position 0 is reported for the three-bar series, and excluded once the fourth
bar with low 105 mitigates it. -/
theorem fvg_lifecycle_witness :
    (⟨"bullish_fvg", [(barAt dfW3 0).hi, (barAt dfW3 2).lo], 1⟩ : FvgEntry)
        ∈ (detect_fvg dfW3).all_unmitigated_fvg ∧
      (⟨"bullish_fvg", [(barAt dfW4 0).hi, (barAt dfW4 2).lo], 1⟩ : FvgEntry)
        ∉ (detect_fvg dfW4).all_unmitigated_fvg := by
  constructor
  · exact (fvg_lifecycle dfW3 (by norm_num [dfW3]) (by norm_num [dfW3]) 0
      (by norm_num [dfW3])).1.mpr
      ⟨by norm_num [barAt, dfW3], fun j hj1 hj2 => by norm_num [dfW3] at hj2; omega⟩
  · intro hmem
    have h := (fvg_lifecycle dfW4 (by norm_num [dfW4]) (by norm_num [dfW4]) 0
      (by norm_num [dfW4])).1.mp hmem
    exact h.2 3 (by norm_num) (by norm_num [dfW4])
      ⟨by norm_num [barAt, dfW4], by norm_num [barAt, dfW4]⟩

/-! ## BOS/CHoCH detection (`smc_structure.py` lines 73-157, claim C6) -/

/-- Python `l[-1]` on a nonempty index list. -/
def lastD (l : List ℕ) : ℕ := l.getD (l.length - 1) 0

/-- Python `l[-2]` on an index list of length at least two. -/
def secondLastD (l : List ℕ) : ℕ := l.getD (l.length - 2) 0

/-- The market-structure bias of `detect_bos_choch` (lines 116-126): both
pairs rising gives bullish, both falling bearish, otherwise ranging. -/
def structuralBias (lastH secondH lastL secondL : ℚ) : String :=
  if secondH < lastH ∧ secondL < lastL then "bullish"
  else if lastH < secondH ∧ lastL < secondL then "bearish"
  else "ranging"

/-- The `bos_info` result dict of `detect_bos_choch`. -/
structure BosInfo where
  type : String
  level : Option ℚ
  direction : Option String
  timestamp : Option ℕ
  current_bias : String
  deriving DecidableEq, Repr

/-- `detect_bos_choch` of `smc_structure.py` (lines 73-157): swing points are
filtered to those strictly before the current bar (the last position); fewer
than two of either kind returns `no_signal`.  A close above the last swing
high times `1 + thr` reports a bullish break — BOS when the bias is bullish,
CHoCH otherwise (the bias is always bullish/bearish/ranging, so the source's
`elif bias in [bearish, ranging]` is the else branch) — and only when that
fails (`elif`), a close below the last swing low times `1 - thr` reports the
bearish break. -/
def detect_bos_choch (df : List Bar) (swingHighs swingLows : List ℕ)
    (thr : ℚ) : BosInfo :=
  let currentTime := df.length - 1
  let currentClose := (barAt df currentTime).cl
  let relH := swingHighs.filter (· < currentTime)
  let relL := swingLows.filter (· < currentTime)
  if relH.length < 2 ∨ relL.length < 2 then
    ⟨"no_signal", none, none, none, "ranging"⟩
  else
    let lastH := (barAt df (lastD relH)).hi
    let secondH := (barAt df (secondLastD relH)).hi
    let lastL := (barAt df (lastD relL)).lo
    let secondL := (barAt df (secondLastD relL)).lo
    let bias := structuralBias lastH secondH lastL secondL
    if lastH * (1 + thr) < currentClose then
      if bias = "bullish" then ⟨"bullish_bos", some lastH, some "up", some currentTime, bias⟩
      else ⟨"bullish_choch", some lastH, some "up", some currentTime, bias⟩
    else if currentClose < lastL * (1 - thr) then
      if bias = "bearish" then ⟨"bearish_bos", some lastL, some "down", some currentTime, bias⟩
      else ⟨"bearish_choch", some lastL, some "down", some currentTime, bias⟩
    else ⟨"no_signal", none, none, none, bias⟩


/-! ## Theorems: BOS/CHoCH (claim C6) -/

/-- Five-bar series whose last swing low (110) lies above its last swing high
(100): the current close 105 clears both break conditions at once. -/
def df6 : List Bar :=
  [⟨96, 100, 95, 97⟩, ⟨110, 111, 110, 111⟩, ⟨96, 100, 95, 97⟩,
   ⟨110, 111, 110, 111⟩, ⟨105, 106, 104, 105⟩]

/-- C6 counterexample: with swing highs at bars 0 and 2 (high 100) and swing
lows at bars 1 and 3 (low 110), the close 105 is below the last swing low by
more than the 0.02% threshold, yet `detect_bos_choch` reports a *bullish*
CHoCH: the bullish-break branch is checked first and takes precedence, so the
claim's symmetric bearish clause fails here. -/
theorem bos_precedence_counterexample :
    (barAt df6 4).cl < (barAt df6 3).lo * (1 - 0.0002) ∧
      (detect_bos_choch df6 [0, 2] [1, 3] 0.0002).type = "bullish_choch" := by
  constructor
  · norm_num [barAt, df6]
  · norm_num [detect_bos_choch, df6, barAt, lastD, secondLastD, structuralBias]
    simp

/-- C6 amended: fewer than two relevant swing highs or lows yields
`no_signal`; otherwise a close above the last swing high times `1 + thr`
yields `bullish_bos` under a bullish bias and `bullish_choch` under a bearish
or ranging bias, with the level at the last swing high; a close below the
last swing low times `1 - thr` yields the symmetric bearish event *only when
the bullish-break condition does not hold* (the source tests it with `elif`,
which matters only in the degenerate case where the last swing low lies above
the last swing high). -/
theorem bos_choch_characterisation (df : List Bar) (hs ls : List ℕ) (thr : ℚ) :
    (((hs.filter (· < df.length - 1)).length < 2 ∨
        (ls.filter (· < df.length - 1)).length < 2) →
      detect_bos_choch df hs ls thr = ⟨"no_signal", none, none, none, "ranging"⟩) ∧
    (2 ≤ (hs.filter (· < df.length - 1)).length →
      2 ≤ (ls.filter (· < df.length - 1)).length →
      (let relH := hs.filter (· < df.length - 1)
       let relL := ls.filter (· < df.length - 1)
       let lastH := (barAt df (lastD relH)).hi
       let secondH := (barAt df (secondLastD relH)).hi
       let lastL := (barAt df (lastD relL)).lo
       let secondL := (barAt df (secondLastD relL)).lo
       let bias := structuralBias lastH secondH lastL secondL
       let close := (barAt df (df.length - 1)).cl
       (lastH * (1 + thr) < close →
         detect_bos_choch df hs ls thr =
           ⟨if bias = "bullish" then "bullish_bos" else "bullish_choch",
            some lastH, some "up", some (df.length - 1), bias⟩) ∧
       (¬(lastH * (1 + thr) < close) → close < lastL * (1 - thr) →
         detect_bos_choch df hs ls thr =
           ⟨if bias = "bearish" then "bearish_bos" else "bearish_choch",
            some lastL, some "down", some (df.length - 1), bias⟩) ∧
       (¬(lastH * (1 + thr) < close) → ¬(close < lastL * (1 - thr)) →
         detect_bos_choch df hs ls thr = ⟨"no_signal", none, none, none, bias⟩))) := by
  constructor
  · intro h
    unfold detect_bos_choch
    rw [if_pos h]
  · intro h2H h2L
    refine ⟨?_, ?_, ?_⟩
    · intro hbreak
      unfold detect_bos_choch
      rw [if_neg (by omega)]
      dsimp only
      rw [if_pos hbreak]
      split_ifs <;> rfl
    · intro hnb hbreak
      unfold detect_bos_choch
      rw [if_neg (by omega)]
      dsimp only
      rw [if_neg hnb, if_pos hbreak]
      split_ifs <;> rfl
    · intro hnb hnb2
      unfold detect_bos_choch
      rw [if_neg (by omega)]
      dsimp only
      rw [if_neg hnb, if_neg hnb2]

/-- Downtrending series: swing highs 109, 107 at bars 1 and 3, swing lows
110, 105 at bars 0 and 2, close 104. -/
def dfW6 : List Bar :=
  [⟨111, 112, 110, 111⟩, ⟨108, 109, 107, 108⟩, ⟨106, 107, 105, 106⟩,
   ⟨106, 107, 104, 106⟩, ⟨104.5, 105, 104, 104⟩]

/-- C6 witness: the amended characterisation applied to the downtrending
series — a bearish structural bias and a close below the last swing low by
more than the threshold give `bearish_bos` at level 105. -/
theorem bos_choch_characterisation_witness :
    detect_bos_choch dfW6 [1, 3] [0, 2] 0.0002
      = ⟨"bearish_bos", some 105, some "down", some 4, "bearish"⟩ := by
  have h := ((bos_choch_characterisation dfW6 [1, 3] [0, 2] 0.0002).2
    (by norm_num [dfW6]) (by norm_num [dfW6])).2.1
    (by norm_num [dfW6, barAt, lastD, secondLastD])
    (by norm_num [dfW6, barAt, lastD, secondLastD])
  rw [h]
  norm_num [dfW6, barAt, lastD, secondLastD, structuralBias]

/-! ## Swing-point detection (`smc_structure.py` lines 8-70, claim C7) -/

/-- The high values of the centered window `[i-m, i+m]`. -/
def windowHighs (df : List Bar) (i m : ℕ) : List ℚ :=
  (List.range' (i - m) (2 * m + 1)).map fun j => (barAt df j).hi

/-- The low values of the centered window `[i-m, i+m]`. -/
def windowLows (df : List Bar) (i m : ℕ) : List ℚ :=
  (List.range' (i - m) (2 * m + 1)).map fun j => (barAt df j).lo

/-- Line 21: the bar's high equals the centered rolling maximum; positions
whose window would leave the series (where pandas yields NaN) are excluded. -/
def isPotentialHigh (df : List Bar) (m i : ℕ) : Bool :=
  decide (m ≤ i) && decide (i + m < df.length) &&
    decide ((barAt df i).hi = listMax (windowHighs df i m))

/-- Line 22, the mirrored swing-low test. -/
def isPotentialLow (df : List Bar) (m i : ℕ) : Bool :=
  decide (m ≤ i) && decide (i + m < df.length) &&
    decide ((barAt df i).lo = listMin (windowLows df i m))

/-- Line 24: `df[is_swing_high].index.tolist()`. -/
def potentialHighs (df : List Bar) (m : ℕ) : List ℕ :=
  (List.range df.length).filter (isPotentialHigh df m)

/-- Line 25: `df[is_swing_low].index.tolist()`. -/
def potentialLows (df : List Bar) (m : ℕ) : List ℕ :=
  (List.range df.length).filter (isPotentialLow df m)

/-- The loop state of lines 27-28 plus the two output lists. -/
structure SwingState where
  highs : List ℕ
  lows : List ℕ
  lastType : Option Bool
  lastIdx : Option ℕ
  deriving DecidableEq, Repr

/-- Python `lst[-1] = i` on a list the loop keeps nonempty. -/
def replaceLast (l : List ℕ) (i : ℕ) : List ℕ := l.dropLast ++ [i]

/-- One iteration of the loop of lines 32-66: initialisation when no swing
has been seen (the bar-distance test of line 49 uses integer positions, which
models the timestamp arithmetic for a uniformly spaced index), the
too-close branch that may replace the previous same-kind swing with a more
extreme one, and the alternation branch that appends only a kind different
from the last. -/
def swingStep (df : List Bar) (m : ℕ) (pH pL : List ℕ) (s : SwingState)
    (i : ℕ) : SwingState :=
  match s.lastIdx with
  | none =>
      if i ∈ pH then ⟨s.highs ++ [i], s.lows, some true, some i⟩
      else if i ∈ pL then ⟨s.highs, s.lows ++ [i], some false, some i⟩
      else ⟨s.highs, s.lows, s.lastType, some i⟩
  | some li =>
      if i - li < m then
        if i ∈ pH ∧ s.lastType = some true ∧ (barAt df li).hi < (barAt df i).hi then
          ⟨replaceLast s.highs i, s.lows, s.lastType, some i⟩
        else if i ∈ pL ∧ s.lastType = some false ∧ (barAt df i).lo < (barAt df li).lo then
          ⟨s.highs, replaceLast s.lows i, s.lastType, some i⟩
        else s
      else
        if i ∈ pH ∧ s.lastType ≠ some true then
          ⟨s.highs ++ [i], s.lows, some true, some i⟩
        else if i ∈ pL ∧ s.lastType ≠ some false then
          ⟨s.highs, s.lows ++ [i], some false, some i⟩
        else s

/-- `find_significant_swing_points` of `smc_structure.py` (lines 8-70):
detect potential swings, walk them in chronological order
(`sorted(potential_highs + potential_lows)`), and return the filtered
`(swing_highs, swing_lows)` index lists. -/
def find_significant_swing_points (df : List Bar) (m : ℕ) : List ℕ × List ℕ :=
  let pH := potentialHighs df m
  let pL := potentialLows df m
  let final := (List.insertionSort (· ≤ ·) (pH ++ pL)).foldl
    (swingStep df m pH pL) ⟨[], [], none, none⟩
  (final.highs, final.lows)

/-- The merged chronological sequence of the two swing lists, tagged with the
kind (`true` = high), as the claim's "merged chronological swing list". -/
def mergeEvents : List ℕ → List ℕ → List (ℕ × Bool)
  | [], ls => ls.map fun i => (i, false)
  | h :: hs, [] => (h, true) :: mergeEvents hs []
  | h :: hs, l :: ls =>
      if h ≤ l then (h, true) :: mergeEvents hs (l :: ls)
      else (l, false) :: mergeEvents (h :: hs) ls
termination_by hs ls => hs.length + ls.length

end NewSatelite

namespace NewSatelite

theorem mergeEvents_nil_left (ls : List ℕ) :
    mergeEvents [] ls = ls.map fun i => (i, false) := by
  simp [mergeEvents]

theorem mergeEvents_cons_nil (h : ℕ) (hs : List ℕ) :
    mergeEvents (h :: hs) [] = (h, true) :: mergeEvents hs [] := by
  simp [mergeEvents]

theorem mergeEvents_cons_cons (h l : ℕ) (hs ls : List ℕ) :
    mergeEvents (h :: hs) (l :: ls)
      = if h ≤ l then (h, true) :: mergeEvents hs (l :: ls)
        else (l, false) :: mergeEvents (h :: hs) ls := by
  simp [mergeEvents]

theorem mergeEvents_nil_right : ∀ hs : List ℕ,
    mergeEvents hs [] = hs.map fun i => (i, true)
  | [] => by simp [mergeEvents]
  | h :: hs => by
      rw [mergeEvents_cons_nil, mergeEvents_nil_right hs]
      rfl

theorem mergeEvents_snoc_high : ∀ (hs ls : List ℕ) (i : ℕ),
    (∀ x ∈ hs, x < i) → (∀ x ∈ ls, x < i) →
    mergeEvents (hs ++ [i]) ls = mergeEvents hs ls ++ [(i, true)]
  | [], [], i, _, _ => by simp [mergeEvents]
  | [], l :: ls, i, h1, h2 => by
      have hl : l < i := h2 l (by simp)
      have ih := mergeEvents_snoc_high [] ls i h1 fun x hx => h2 x (by simp [hx])
      simp only [List.nil_append] at ih ⊢
      rw [mergeEvents_cons_cons, if_neg (by omega), ih, mergeEvents_nil_left,
        mergeEvents_nil_left]
      rfl
  | h :: hs, [], i, h1, h2 => by
      rw [show (h :: hs) ++ [i] = (h :: (hs ++ [i])) from rfl, mergeEvents_nil_right,
        mergeEvents_nil_right]
      simp
  | h :: hs, l :: ls, i, h1, h2 => by
      by_cases hc : h ≤ l
      · have ih := mergeEvents_snoc_high hs (l :: ls) i
          (fun x hx => h1 x (by simp [hx])) h2
        rw [show (h :: hs) ++ [i] = h :: (hs ++ [i]) from rfl, mergeEvents_cons_cons,
          if_pos hc, ih, mergeEvents_cons_cons, if_pos hc]
        rfl
      · have ih := mergeEvents_snoc_high (h :: hs) ls i h1
          fun x hx => h2 x (by simp [hx])
        rw [show (h :: hs) ++ [i] = h :: (hs ++ [i]) from rfl, mergeEvents_cons_cons,
          if_neg hc, show h :: (hs ++ [i]) = (h :: hs) ++ [i] from rfl, ih,
          mergeEvents_cons_cons, if_neg hc]
        rfl
termination_by hs ls => hs.length + ls.length

theorem mergeEvents_snoc_low : ∀ (hs ls : List ℕ) (i : ℕ),
    (∀ x ∈ hs, x < i) → (∀ x ∈ ls, x < i) →
    mergeEvents hs (ls ++ [i]) = mergeEvents hs ls ++ [(i, false)]
  | [], ls, i, _, _ => by simp [mergeEvents]
  | h :: hs, [], i, h1, h2 => by
      have hh : h < i := h1 h (by simp)
      have ih := mergeEvents_snoc_low hs [] i (fun x hx => h1 x (by simp [hx])) h2
      simp only [List.nil_append] at ih ⊢
      rw [mergeEvents_cons_cons, if_pos (by omega), ih, mergeEvents_cons_nil]
      rfl
  | h :: hs, l :: ls, i, h1, h2 => by
      by_cases hc : h ≤ l
      · have ih := mergeEvents_snoc_low hs (l :: ls) i
          (fun x hx => h1 x (by simp [hx])) h2
        rw [show (l :: ls) ++ [i] = l :: (ls ++ [i]) from rfl, mergeEvents_cons_cons,
          if_pos hc, show l :: (ls ++ [i]) = (l :: ls) ++ [i] from rfl, ih,
          mergeEvents_cons_cons, if_pos hc]
        rfl
      · have ih := mergeEvents_snoc_low (h :: hs) ls i h1
          fun x hx => h2 x (by simp [hx])
        rw [show (l :: ls) ++ [i] = l :: (ls ++ [i]) from rfl, mergeEvents_cons_cons,
          if_neg hc, ih, mergeEvents_cons_cons, if_neg hc]
        rfl
termination_by hs ls => hs.length + ls.length

/-- Alternation of kinds along the merged list. -/
def AltChain (ev : List (ℕ × Bool)) : Prop :=
  List.Chain' (fun a b => a.2 ≠ b.2) ev

theorem altChain_snoc_of_last (M : List (ℕ × Bool)) (e : ℕ × Bool)
    (h : AltChain M) (hlast : ∀ x, M.getLast? = some x → x.2 ≠ e.2) :
    AltChain (M ++ [e]) := by
  unfold AltChain at h ⊢
  rw [List.chain'_append]
  refine ⟨h, List.chain'_singleton _, fun x hx y hy => ?_⟩
  simp only [List.head?_cons, Option.mem_def, Option.some.injEq] at hy
  subst hy
  exact hlast x hx

/-- The loop invariant of `find_significant_swing_points`: output lists are
bounded by the last processed swing index, the most recent swing (of the kind
recorded in `lastType`) closes its list and dominates everything else, and
the merged chronological list alternates in kind. -/
structure SInv (s : SwingState) : Prop where
  coherent : s.lastIdx = none → s.lastType = none
  empty_none : s.lastType = none → s.highs = [] ∧ s.lows = []
  bound : ∀ li, s.lastIdx = some li → (∀ x ∈ s.highs, x ≤ li) ∧ (∀ x ∈ s.lows, x ≤ li)
  high_last : s.lastType = some true → ∃ hs' j, s.highs = hs' ++ [j] ∧
    (∀ x ∈ hs', x < j) ∧ (∀ x ∈ s.lows, x < j)
  low_last : s.lastType = some false → ∃ ls' j, s.lows = ls' ++ [j] ∧
    (∀ x ∈ ls', x < j) ∧ (∀ x ∈ s.highs, x < j)
  chain : AltChain (mergeEvents s.highs s.lows)

theorem swingStep_inv (df : List Bar) (m : ℕ) (pH pL : List ℕ) (hm : 1 ≤ m)
    (s : SwingState) (i : ℕ) (inv : SInv s)
    (hle : ∀ li, s.lastIdx = some li → li ≤ i) :
    SInv (swingStep df m pH pL s i) := by
  obtain ⟨highs, lows, lt, lidx⟩ := s
  obtain ⟨ic, ie, ib, ihl, ill, ich⟩ := inv
  dsimp only at ic ie ib ihl ill ich hle
  unfold swingStep
  rcases lidx with _ | li
  · obtain ⟨hh, hl⟩ := ie (ic rfl)
    have hlt : lt = none := ic rfl
    subst hh hl hlt
    dsimp only
    split_ifs with h1 h2
    · refine ⟨by simp, by simp, ?_, ?_, by simp, ?_⟩
      · rintro li' ⟨⟩
        constructor <;> simp
      · exact fun _ => ⟨[], i, rfl, by simp, by simp⟩
      · rw [List.nil_append, mergeEvents_cons_nil, mergeEvents_nil_left]
        simp [AltChain]
    · refine ⟨by simp, by simp, ?_, by simp, ?_, ?_⟩
      · rintro li' ⟨⟩
        constructor <;> simp
      · exact fun _ => ⟨[], i, rfl, by simp, by simp⟩
      · rw [List.nil_append, mergeEvents_nil_left]
        simp [AltChain]
    · exact ⟨by simp, fun _ => ⟨rfl, rfl⟩, by rintro li' ⟨⟩; simp, by simp, by simp,
        by rw [mergeEvents_nil_left]; simp [AltChain]⟩
  · have hli : li ≤ i := hle li rfl
    have hbndH := (ib li rfl).1
    have hbndL := (ib li rfl).2
    dsimp only
    split_ifs with hA hc1 hc2 hd1 hd2
    · -- too close, replace last high
      obtain ⟨hpH, hltT, hext⟩ := hc1
      obtain ⟨hs', j, hhs, hb1, hb2⟩ := ihl hltT
      have hjli : j ≤ li := hbndH j (by simp [hhs])
      have hb1i : ∀ x ∈ hs', x < i := fun x hx => lt_of_lt_of_le (hb1 x hx) (by omega)
      have hb2i : ∀ x ∈ lows, x < i := fun x hx => lt_of_lt_of_le (hb2 x hx) (by omega)
      have hrepl : replaceLast highs i = hs' ++ [i] := by
        rw [hhs, replaceLast, List.dropLast_concat]
      have hcho : List.Chain' (fun a b => a.2 ≠ b.2)
          (mergeEvents hs' lows ++ [(j, true)]) := by
        have h0 := ich
        unfold AltChain at h0
        rwa [hhs, mergeEvents_snoc_high hs' lows j hb1 hb2] at h0
      rw [List.chain'_append] at hcho
      refine ⟨by simp, by simp [hltT], ?_, ?_, by simp [hltT], ?_⟩
      · rintro li' ⟨⟩
        rw [hrepl]
        constructor
        · intro x hx
          rcases List.mem_append.mp hx with hx | hx
          · exact le_of_lt (hb1i x hx)
          · simp at hx
            omega
        · exact fun x hx => le_of_lt (hb2i x hx)
      · intro _
        exact ⟨hs', i, hrepl, hb1i, hb2i⟩
      · rw [hrepl, mergeEvents_snoc_high hs' lows i hb1i hb2i]
        exact altChain_snoc_of_last _ _ hcho.1 fun x hx => by
          have h2 := hcho.2.2 x hx (j, true) (by simp)
          simpa using h2
    · -- too close, replace last low
      obtain ⟨hpL, hltF, hext⟩ := hc2
      obtain ⟨ls', j, hls, hb1, hb2⟩ := ill hltF
      have hjli : j ≤ li := hbndL j (by simp [hls])
      have hb1i : ∀ x ∈ ls', x < i := fun x hx => lt_of_lt_of_le (hb1 x hx) (by omega)
      have hb2i : ∀ x ∈ highs, x < i := fun x hx => lt_of_lt_of_le (hb2 x hx) (by omega)
      have hrepl : replaceLast lows i = ls' ++ [i] := by
        rw [hls, replaceLast, List.dropLast_concat]
      have hcho : List.Chain' (fun a b => a.2 ≠ b.2)
          (mergeEvents highs ls' ++ [(j, false)]) := by
        have h0 := ich
        unfold AltChain at h0
        rwa [hls, mergeEvents_snoc_low highs ls' j hb2 hb1] at h0
      rw [List.chain'_append] at hcho
      refine ⟨by simp, by simp [hltF], ?_, by simp [hltF], ?_, ?_⟩
      · rintro li' ⟨⟩
        constructor
        · exact fun x hx => le_of_lt (hb2i x hx)
        · intro x hx
          rw [hrepl] at hx
          rcases List.mem_append.mp hx with hx | hx
          · exact le_of_lt (hb1i x hx)
          · simp at hx
            omega
      · intro _
        exact ⟨ls', i, hrepl, hb1i, hb2i⟩
      · rw [hrepl, mergeEvents_snoc_low highs ls' i hb2i hb1i]
        exact altChain_snoc_of_last _ _ hcho.1 fun x hx => by
          have h2 := hcho.2.2 x hx (j, false) (by simp)
          simpa using h2
    · exact ⟨ic, ie, ib, ihl, ill, ich⟩
    · -- far enough, append a high
      obtain ⟨hpH, hltT⟩ := hd1
      have hiI : li < i := by omega
      have hbH : ∀ x ∈ highs, x < i := fun x hx => lt_of_le_of_lt (hbndH x hx) hiI
      have hbL : ∀ x ∈ lows, x < i := fun x hx => lt_of_le_of_lt (hbndL x hx) hiI
      refine ⟨by simp, by simp, ?_, ?_, by simp, ?_⟩
      · rintro li' ⟨⟩
        constructor
        · intro x hx
          rcases List.mem_append.mp hx with hx | hx
          · exact le_of_lt (hbH x hx)
          · simp at hx
            omega
        · exact fun x hx => le_of_lt (hbL x hx)
      · exact fun _ => ⟨highs, i, rfl, hbH, hbL⟩
      · unfold AltChain
        rw [mergeEvents_snoc_high highs lows i hbH hbL]
        rcases hlt : lt with _ | b
        · obtain ⟨hh, hl⟩ := ie hlt
          subst hh hl
          rw [mergeEvents_nil_left]
          simp
        · rcases b with _ | _
          · -- lt = some false
            obtain ⟨ls', j, hls, hb1, hb2⟩ := ill hlt
            refine altChain_snoc_of_last _ _ ich fun x hx => ?_
            rw [hls, mergeEvents_snoc_low highs ls' j hb2 hb1,
              List.getLast?_concat] at hx
            simp at hx
            subst hx
            simp
          · exact absurd hlt hltT
    · -- far enough, append a low
      obtain ⟨hpL, hltF⟩ := hd2
      have hiI : li < i := by omega
      have hbH : ∀ x ∈ highs, x < i := fun x hx => lt_of_le_of_lt (hbndH x hx) hiI
      have hbL : ∀ x ∈ lows, x < i := fun x hx => lt_of_le_of_lt (hbndL x hx) hiI
      refine ⟨by simp, by simp, ?_, by simp, ?_, ?_⟩
      · rintro li' ⟨⟩
        constructor
        · exact fun x hx => le_of_lt (hbH x hx)
        · intro x hx
          rcases List.mem_append.mp hx with hx | hx
          · exact le_of_lt (hbL x hx)
          · simp at hx
            omega
      · exact fun _ => ⟨lows, i, rfl, hbL, hbH⟩
      · unfold AltChain
        rw [mergeEvents_snoc_low highs lows i hbH hbL]
        rcases hlt : lt with _ | b
        · obtain ⟨hh, hl⟩ := ie hlt
          subst hh hl
          rw [mergeEvents_nil_left]
          simp
        · rcases b with _ | _
          · exact absurd hlt hltF
          · -- lt = some true
            obtain ⟨hs', j, hhs, hb1, hb2⟩ := ihl hlt
            refine altChain_snoc_of_last _ _ ich fun x hx => ?_
            rw [hhs, mergeEvents_snoc_high hs' lows j hb1 hb2,
              List.getLast?_concat] at hx
            simp at hx
            subst hx
            simp
    · exact ⟨ic, ie, ib, ihl, ill, ich⟩

theorem swingStep_lastIdx (df : List Bar) (m : ℕ) (pH pL : List ℕ)
    (s : SwingState) (i : ℕ) :
    (swingStep df m pH pL s i).lastIdx = s.lastIdx ∨
      (swingStep df m pH pL s i).lastIdx = some i := by
  obtain ⟨highs, lows, lt, lidx⟩ := s
  unfold swingStep
  rcases lidx with _ | li <;> dsimp only <;> split_ifs <;> simp

theorem foldl_swingStep_inv (df : List Bar) (m : ℕ) (pH pL : List ℕ)
    (hm : 1 ≤ m) (l : List ℕ) (s : SwingState)
    (hsort : l.Sorted (· ≤ ·)) (inv : SInv s)
    (hb : ∀ li, s.lastIdx = some li → ∀ x ∈ l, li ≤ x) :
    SInv (l.foldl (swingStep df m pH pL) s) := by
  induction l generalizing s with
  | nil => exact inv
  | cons i t ih =>
      rw [List.foldl_cons]
      obtain ⟨hhead, htail⟩ := List.sorted_cons.mp hsort
      refine ih _ htail
        (swingStep_inv df m pH pL hm s i inv
          fun li h => hb li h i (List.mem_cons_self i t)) ?_
      intro li h x hx
      rcases swingStep_lastIdx df m pH pL s i with he | he
      · exact hb li (he ▸ h) x (List.mem_cons_of_mem _ hx)
      · rw [he, Option.some.injEq] at h
        subst h
        exact hhead x hx

theorem init_SInv : SInv ⟨[], [], none, none⟩ := by
  refine ⟨fun _ => rfl, fun _ => ⟨rfl, rfl⟩, ?_, by simp, by simp, ?_⟩
  · rintro li ⟨⟩
  · rw [mergeEvents_nil_left]
    simp [AltChain]

/-- C7: in the output of `find_significant_swing_points`, the merged
chronological sequence of swing highs and swing lows alternates kind: no two
consecutive entries of the merged list are both highs or both lows (for any
positive minimum bar separation, default 5 in the source). -/
theorem swing_alternation (df : List Bar) (m : ℕ) (hm : 1 ≤ m) :
    List.Chain' (fun a b => a.2 ≠ b.2)
      (mergeEvents (find_significant_swing_points df m).1
        (find_significant_swing_points df m).2) := by
  unfold find_significant_swing_points
  dsimp only
  have h := foldl_swingStep_inv df m (potentialHighs df m) (potentialLows df m)
    hm (List.insertionSort (· ≤ ·) (potentialHighs df m ++ potentialLows df m))
    ⟨[], [], none, none⟩
    (List.sorted_insertionSort _ _) init_SInv (by rintro li ⟨⟩)
  exact h.chain

/-- A seven-bar zigzag giving swing highs at indices 1, 3, 5 and swing lows
at 2, 4 for a window of one bar. -/
def dfZig : List Bar :=
  [⟨1, 1, 1, 1⟩, ⟨5, 5, 5, 5⟩, ⟨2, 2, 2, 2⟩, ⟨6, 6, 6, 6⟩,
   ⟨3, 3, 3, 3⟩, ⟨7, 7, 7, 7⟩, ⟨4, 4, 4, 4⟩]

theorem swing_alternation_witness :
    1 ≤ 1 ∧
      List.Chain' (fun a b => a.2 ≠ b.2)
        (mergeEvents (find_significant_swing_points dfZig 1).1
          (find_significant_swing_points dfZig 1).2) :=
  ⟨by norm_num, swing_alternation dfZig 1 (by norm_num)⟩

/-! ## The detailed signal builder (`FILE: logic_engine/signal_builder.py`)

`generate_trading_signal` (lines 13-216) assembles the final trade dict.  Note
that as wired the function can never run: lines 40-41 call
`check_buy_confluence` / `check_sell_confluence` with four positional
arguments while both definitions in scope (`FILE: logic_engine/
confluence_checker.py` line 45/279 and `logic_engine/buy_confluence_rules.py` /
`sell_confluence_rules.py` line 27) require five, so every call raises
`TypeError` before line 43.  The embedding therefore takes the two confluence
results as parameters and models the body from line 43 on.  The swing-point
extraction of lines 53-84 (pandas timestamp filtering) is likewise abstracted
into the two optional prices it produces. -/

/-- One fragment of the builder's `reason` string, one constructor per
assignment or append site of `FILE: logic_engine/signal_builder.py`. -/
inductive SBNote where
  /-- `"Konfluensi belum cukup untuk sinyal valid."` (line 45). -/
  | defaultNote : SBNote
  /-- `"Konfluensi Bullish: " + ", ".join(...)` (line 98) when `bullish` is
  `true`, `"Konfluensi Bearish: " + ", ".join(...)` (line 138) otherwise. -/
  | header (bullish : Bool) (rs : List Reason) : SBNote
  /-- `" | Entry ideal di Bullish OB."` (line 108) / `" | Entry ideal di
  Bearish OB."` (line 147). -/
  | entryOB (bullish : Bool) : SBNote
  /-- `" | Entry ideal di Bullish FVG."` (line 115) / `" | Entry ideal di
  Bearish FVG."` (line 154). -/
  | entryFVG (bullish : Bool) : SBNote
  /-- `" | SL based on Bullish OB."` (line 122) / `" | SL based on Bearish
  OB."` (line 161). -/
  | slOB (bullish : Bool) : SBNote
  /-- `" | SL based on Last Swing Low."` (line 125) / `" | SL based on Last
  Swing High."` (line 164). -/
  | slSwing (bullish : Bool) : SBNote
  /-- `" | SL based on ATR."` (lines 128/167). -/
  | slATR : SBNote
  /-- `" | SL based on Percentage Fallback."` (lines 131/170). -/
  | slFallback : SBNote
  /-- `" | Risk per unit is zero, cannot calculate proper TP/SL."`
  (line 201). -/
  | riskZero : SBNote
  deriving DecidableEq, Repr

/-- Python's `round(x, 4)` up to tie behaviour (Python rounds ties to even,
`round` here rounds ties up; no claim below depends on a tie). -/
def round4 (q : ℚ) : ℚ := round (q * 10000) / 10000

/-- Python's `round(x, 2)`, same caveat as `round4`. -/
def round2 (q : ℚ) : ℚ := round (q * 100) / 100

/-- The output dict of `generate_trading_signal` (lines 204-216).
`risk_reward_ratio_base` holds the number `r` of the formatted string
`"1:r"`. -/
structure TradeSignal where
  symbol : String
  timeframe : String
  signal : String
  strength : String
  entry_price : Option ℚ
  stop_loss : Option ℚ
  take_profit_1 : Option ℚ
  take_profit_2 : Option ℚ
  take_profit_3 : Option ℚ
  risk_reward_ratio_base : Option ℚ
  reason : List SBNote
  deriving DecidableEq, Repr

/-- Lines 172-201: the take-profit / risk-reward stage, guarded by a set stop
loss and a directional signal.  Returns `(tp1, tp2, tp3, rrr, reason)`;
the rounding of line 199 is applied here, the TP roundings of lines 211-213
at the call site. -/
def tpStage (signal_type : String) (entry_price : ℚ) (stop_loss : Option ℚ)
    (reason : List SBNote) :
    Option ℚ × Option ℚ × Option ℚ × Option ℚ × List SBNote :=
  match stop_loss with
  | none => (none, none, none, none, reason)
  | some sl =>
      if signal_type ≠ "NO_SIGNAL" then
        let risk_per_unit := |entry_price - sl|
        if 0 < risk_per_unit then
          let tp1 := if signal_type = "BUY" then entry_price + risk_per_unit * 1
            else entry_price - risk_per_unit * 1
          let tp2 := if signal_type = "BUY" then entry_price + risk_per_unit * 2
            else entry_price - risk_per_unit * 2
          let tp3 := if signal_type = "BUY" then entry_price + risk_per_unit * 3
            else entry_price - risk_per_unit * 3
          (some tp1, some tp2, some tp3,
           some (round2 (|entry_price - tp1| / risk_per_unit)),
           reason)
        else (none, none, none, none, reason ++ [SBNote.riskZero])
      else (none, none, none, none, reason)

/-- Lines 100-116 / 140-155: the ideal-entry refinement, shared shape of the
BUY and SELL branches (`bullish` selects the OB key and the FVG label). -/
def entryStage (bullish : Bool) (ob : Option ObData) (fvg : Option FvgData)
    (current_price : ℚ) : ℚ × List SBNote :=
  let step1 : ℚ × List SBNote :=
    match ob with
    | some o =>
        match o.low, o.high with
        | some lo, some hi =>
            if is_price_in_zone current_price [lo, hi] then
              ((lo + hi) / 2, [SBNote.entryOB bullish])
            else (current_price, [])
        | _, _ => (current_price, [])
    | none => (current_price, [])
  if step1.1 = current_price then
    match fvg with
    | some f =>
        if f.type = some (if bullish then "bullish_fvg" else "bearish_fvg") ∧
            f.zone ≠ [] then
          if is_price_in_zone current_price f.zone then
            ((f.zone.getD 0 0 + f.zone.getD 1 0) / 2,
             step1.2 ++ [SBNote.entryFVG bullish])
          else step1
        else step1
    | none => step1
  else step1

/-- Lines 118-131 / 157-170: the stop-loss priority chain
(OB bound, last swing, ATR, percentage fallback). -/
def slStage (bullish : Bool) (ob : Option ObData) (last_swing : Option ℚ)
    (atr_value : Option ℚ) (entry_price current_price : ℚ) : ℚ × SBNote :=
  match ob.bind (fun o => if bullish then o.low else o.high) with
  | some b =>
      (if bullish then b * (995 / 1000) else b * (1005 / 1000), SBNote.slOB bullish)
  | none =>
      match last_swing with
      | some sw =>
          (if bullish then sw * (995 / 1000) else sw * (1005 / 1000),
           SBNote.slSwing bullish)
      | none =>
          match atr_value with
          | some atr =>
              if 0 < atr then
                (if bullish then entry_price - atr * (15 / 10)
                 else entry_price + atr * (15 / 10), SBNote.slATR)
              else
                (if bullish then current_price * (98 / 100)
                 else current_price * (102 / 100), SBNote.slFallback)
          | none =>
              (if bullish then current_price * (98 / 100)
               else current_price * (102 / 100), SBNote.slFallback)

/-- `generate_trading_signal` from line 43 on, with the two confluence
results as parameters (see the section comment: the source's own calls on
lines 40-41 raise `TypeError`) and the swing extraction of lines 53-84
abstracted to its two optional output prices. -/
def generate_trading_signal (symbol timeframe : String) (atr_value : Option ℚ)
    (smc_signals : SmcSignals)
    (last_swing_low_price last_swing_high_price : Option ℚ)
    (current_price : ℚ)
    (buy_confluence sell_confluence : SignalStrength) : TradeSignal :=
  if buy_confluence.type ≠ "no_signal" then
    let ob := smc_signals.order_block.bind OrderBlockData.bullish_ob
    let e := entryStage true ob smc_signals.fvg current_price
    let sl := slStage true ob last_swing_low_price atr_value e.1 current_price
    let reason := SBNote.header true buy_confluence.reason :: e.2 ++ [sl.2]
    let t := tpStage "BUY" e.1 (some sl.1) reason
    ⟨symbol, timeframe, "BUY", buy_confluence.type, some (round4 e.1),
     some (round4 sl.1), t.1.map round4, t.2.1.map round4, t.2.2.1.map round4,
     t.2.2.2.1, t.2.2.2.2⟩
  else if sell_confluence.type ≠ "no_signal" then
    let ob := smc_signals.order_block.bind OrderBlockData.bearish_ob
    let e := entryStage false ob smc_signals.fvg current_price
    let sl := slStage false ob last_swing_high_price atr_value e.1 current_price
    let reason := SBNote.header false sell_confluence.reason :: e.2 ++ [sl.2]
    let t := tpStage "SELL" e.1 (some sl.1) reason
    ⟨symbol, timeframe, "SELL", sell_confluence.type, some (round4 e.1),
     some (round4 sl.1), t.1.map round4, t.2.1.map round4, t.2.2.1.map round4,
     t.2.2.2.1, t.2.2.2.2⟩
  else
    ⟨symbol, timeframe, "NO_SIGNAL", "none", some (round4 current_price),
     none, none, none, none, none, [SBNote.defaultNote]⟩

/-- With a BUY signal whose swing-low stop loss lands exactly on the entry
price (swing low 200, price 199, `200 * 0.995 = 199`), the risk distance is
zero: the take profits are left unset and the zero-risk note is appended, but
the `stop_loss` field of the output is NOT left unset - it keeps the value
computed on line 124, contradicting the claim's "TP and SL fields are left
unset". -/
theorem degenerate_risk_stop_loss_set :
    (generate_trading_signal "BTCUSDT" "1h" none ⟨none, none, none, none⟩
        (some 200) none 199 ⟨"moderate_buy", []⟩ ⟨"no_signal", []⟩).signal
      = "BUY" ∧
    (generate_trading_signal "BTCUSDT" "1h" none ⟨none, none, none, none⟩
        (some 200) none 199 ⟨"moderate_buy", []⟩ ⟨"no_signal", []⟩).take_profit_1
      = none ∧
    (generate_trading_signal "BTCUSDT" "1h" none ⟨none, none, none, none⟩
        (some 200) none 199 ⟨"moderate_buy", []⟩ ⟨"no_signal", []⟩).reason
      = [SBNote.header true [], SBNote.slSwing true, SBNote.riskZero] ∧
    (generate_trading_signal "BTCUSDT" "1h" none ⟨none, none, none, none⟩
        (some 200) none 199 ⟨"moderate_buy", []⟩ ⟨"no_signal", []⟩).stop_loss
      ≠ none := by
  norm_num [generate_trading_signal, entryStage, slStage, tpStage]
  simp

/-- C9: in the detailed `generate_trading_signal` variant, a directional
signal with zero risk distance leaves the three take-profit fields and the
risk-reward field unset, appends the zero-risk note to the reason, and the
evaluation is total (lines 172-216 raise nothing); but the stop-loss field
keeps its computed value instead of being left unset, and the function as
wired can never run at all, since lines 40-41 call the five-parameter
evaluators with four arguments. -/
theorem degenerate_risk_policy (st sy tf : String) (entry sl cp lsl : ℚ)
    (rs : List SBNote) (bos : Option BosChoch) (eqz : Option EqZoneData)
    (atr : Option ℚ) (lsh : Option ℚ) (bc sc : SignalStrength)
    (hdir : st = "BUY" ∨ st = "SELL") (hrisk : entry = sl)
    (hbc : bc.type ≠ "no_signal") (hswing : lsl * (995 / 1000) = cp) :
    tpStage st entry (some sl) rs
      = (none, none, none, none, rs ++ [SBNote.riskZero]) ∧
    generate_trading_signal sy tf atr ⟨bos, none, none, eqz⟩ (some lsl) lsh cp
        bc sc
      = ⟨sy, tf, "BUY", bc.type, some (round4 cp), some (round4 cp), none, none,
         none, none,
         [SBNote.header true bc.reason, SBNote.slSwing true,
          SBNote.riskZero]⟩ := by
  constructor
  · subst hrisk
    rcases hdir with h | h <;> subst h <;>
      simp [tpStage, sub_self, abs_zero]
  · have he : entryStage true none none cp = (cp, []) := by
      simp [entryStage]
    have hs : slStage true none (some lsl) atr cp cp
        = (lsl * (995 / 1000), SBNote.slSwing true) := by
      simp [slStage]
    have ht : tpStage "BUY" cp (some cp)
        [SBNote.header true bc.reason, SBNote.slSwing true]
        = (none, none, none, none,
           [SBNote.header true bc.reason, SBNote.slSwing true,
            SBNote.riskZero]) := by
      simp [tpStage, sub_self, abs_zero]
    have hs2 : slStage true none (some lsl) atr cp cp
        = (cp, SBNote.slSwing true) := by
      rw [hs, hswing]
    simp [generate_trading_signal, hbc, he, hs2, ht]

theorem degenerate_risk_policy_witness :
    (("BUY" : String) = "BUY" ∨ ("BUY" : String) = "SELL") ∧
    (199 : ℚ) = 199 ∧ ("moderate_buy" : String) ≠ "no_signal" ∧
    (200 : ℚ) * (995 / 1000) = 199 ∧
    (tpStage "BUY" 199 (some 199) []
        = (none, none, none, none, [SBNote.riskZero]) ∧
      generate_trading_signal "t" "1h" none ⟨none, none, none, none⟩ (some 200)
          none 199 ⟨"moderate_buy", []⟩ ⟨"no_signal", []⟩
        = ⟨"t", "1h", "BUY", "moderate_buy", some (round4 199),
           some (round4 199), none, none, none, none,
           [SBNote.header true [], SBNote.slSwing true, SBNote.riskZero]⟩) :=
  ⟨Or.inl rfl, rfl, by decide, by norm_num,
   degenerate_risk_policy "BUY" "t" "1h" 199 199 199 200 [] none none none none
     ⟨"moderate_buy", []⟩ ⟨"no_signal", []⟩ (Or.inl rfl) rfl (by decide)
     (by norm_num)⟩

end NewSatelite
